import Mathlib

/-!
Shallow embedding of the Lattice backend core (streaming anomaly detector,
mod-config hub, alert transport, config file repository, OP token issuance)
together with proofs of the specification claims.

Rust structures are mirrored as Lean structures; `HashMap` becomes an
association list, `VecDeque` a list whose head is the deque front, machine
integers become `Int`/`Nat`.  Wall-clock reads (`current_millis`,
`Utc::now`, `Local::now`), freshly drawn UUIDs and external library
primitives (SHA-256, HMAC, the network send) are passed in as explicit
parameters, so every function below is a pure image of the corresponding
Rust function.
-/

namespace Lattice

/-- Association-list lookup, the embedding of `HashMap::get`. -/
def alist.find {α β : Type} [DecidableEq α] (l : List (α × β)) (k : α) : Option β :=
  match l with
  | [] => none
  | (k', v) :: rest => if k' = k then some v else alist.find rest k

/-- Association-list insert-or-replace, the embedding of `HashMap::insert`
and of mutation through `HashMap::entry`. -/
def alist.upsert {α β : Type} [DecidableEq α] (l : List (α × β)) (k : α) (v : β) :
    List (α × β) :=
  match l with
  | [] => [(k, v)]
  | (k', v') :: rest =>
      if k' = k then (k, v) :: rest else (k', v') :: alist.upsert rest k v

/-- Embedding of Rust `str::trim`: strip leading and trailing whitespace.
Implemented over the character list so that concrete instances reduce in
the kernel. -/
def str_trim (s : String) : String :=
  String.mk (((s.toList.dropWhile Char.isWhitespace).reverse.dropWhile
    Char.isWhitespace).reverse)

/-- Embedding of Rust `str::to_lowercase`. -/
def str_to_lower (s : String) : String :=
  String.mk (s.toList.map Char.toLower)

/-- Embedding of Rust `str::to_uppercase`. -/
def str_to_upper (s : String) : String :=
  String.mk (s.toList.map Char.toUpper)

/-- Embedding of Rust `str::starts_with`. -/
def str_starts_with (s pre : String) : Bool :=
  pre.toList.isPrefixOf s.toList

/-- `backend-domain/src/entities/model.rs`: `IngestEvent`. -/
structure IngestEvent where
  event_id : String
  event_time : Int
  server_id : Option String
  event_type : String
  player_uuid : Option String
  player_name : Option String
  item_id : String
  count : Int
  nbt_hash : Option String
  origin_id : Option String
  origin_type : Option String
  origin_ref : Option String
  source_type : Option String
  source_ref : Option String
  storage_mod : Option String
  storage_id : Option String
  actor_type : Option String
  trace_id : Option String
  item_fingerprint : Option String
  dim : Option String
  x : Option Int
  y : Option Int
  z : Option Int
deriving DecidableEq, Repr

/-- `backend-domain/src/entities/model.rs`: `KeyItemRule` (the variant the
analyzer compiles against: optional `u64` threshold). -/
structure KeyItemRule where
  item_id : String
  threshold : Option Nat
  max_per_10m : Option Nat
  risk_level : Option String
  weight : Option Nat
deriving DecidableEq, Repr

/-- `KeyItemRule::effective_threshold`: `self.threshold.or(self.max_per_10m).unwrap_or_default()`. -/
def KeyItemRule.effective_threshold (r : KeyItemRule) : Nat :=
  match r.threshold with
  | some t => t
  | none =>
      match r.max_per_10m with
      | some t => t
      | none => 0

/-- `KeyItemRule::effective_risk_level`. -/
def KeyItemRule.effective_risk_level (r : KeyItemRule) : String :=
  match r.risk_level with
  | some level =>
      let upper := str_to_upper (str_trim level)
      if upper = "" then "MEDIUM" else upper
  | none =>
      match r.weight with
      | some w => if 8 ≤ w then "HIGH" else "MEDIUM"
      | none => "MEDIUM"

/-- `backend-domain/src/entities/model.rs`: `TransferRecord`. -/
structure TransferRecord where
  time_ms : Int
  player_uuid : String
  player_name : String
  item_fingerprint : String
  count : Int
  storage_mod : String
  storage_id : String
  trace_id : String
deriving DecidableEq, Repr

/-- The evidence bag the analyzer serialises into `evidence_json`. -/
structure Evidence where
  transfer : Option TransferRecord
  origin_id : Option String
  origin_type : Option String
  origin_ref : Option String
  trace_id : Option String
deriving DecidableEq, Repr

/-- `backend-domain/src/entities/model.rs`: `AnomalyRow`.  `event_time` is
kept in epoch milliseconds; the source converts the same value with
`millis_to_utc`.  `evidence` is the structured form of `evidence_json`. -/
structure AnomalyRow where
  event_time : Int
  server_id : String
  player_uuid : String
  player_name : String
  item_id : String
  count : Int
  risk_level : String
  rule_id : String
  reason : String
  evidence : Evidence
deriving DecidableEq, Repr

/-- `backend-domain/src/services/analyzer.rs`: `AuditRecord`. -/
structure AuditRecord where
  time_ms : Int
  count : Int
deriving DecidableEq, Repr

/-- `backend-domain/src/services/analyzer.rs`: `CountRecord`. -/
structure CountRecord where
  time_ms : Int
  count : Int
deriving DecidableEq, Repr

/-- `backend-domain/src/services/analyzer.rs`: `Analyzer` state.  Each
`VecDeque` is a list whose head is the deque front (oldest element). -/
structure Analyzer where
  transfer_cache : List TransferRecord
  origin_seen : List (String × (String × Int))
  key_item_windows : List ((String × String) × List Int)
  pickup_windows : List ((String × String × String) × List Int)
  audit_windows : List ((String × String × String) × List AuditRecord)
  strict_pickup_windows : List ((String × String) × List CountRecord)
deriving DecidableEq, Repr

/-- `Analyzer::default()`: all state structures empty. -/
def Analyzer.init : Analyzer :=
  { transfer_cache := []
    origin_seen := []
    key_item_windows := []
    pickup_windows := []
    audit_windows := []
    strict_pickup_windows := [] }

/-- The fingerprint fallback used for both ACQUIRE matching and TRANSFER
recording: `item_fingerprint.unwrap_or_else(item_id + ":" + nbt_hash)`. -/
def fingerprint_of (event : IngestEvent) : String :=
  match event.item_fingerprint with
  | some fp => fp
  | none => event.item_id ++ ":" ++ (event.nbt_hash.getD "")

/-- `Analyzer::build_anomaly`. -/
def build_anomaly (event : IngestEvent) (risk rule_id reason : String)
    (transfer : Option TransferRecord) : AnomalyRow :=
  { event_time := event.event_time
    server_id := event.server_id.getD ""
    player_uuid := event.player_uuid.getD ""
    player_name := event.player_name.getD ""
    item_id := event.item_id
    count := event.count
    risk_level := risk
    rule_id := rule_id
    reason := reason
    evidence :=
      { transfer := transfer
        origin_id := event.origin_id
        origin_type := event.origin_type
        origin_ref := event.origin_ref
        trace_id := event.trace_id } }

/-- `Analyzer::record_transfer`: the TransferRecord appended to the cache. -/
def transfer_record_of (event : IngestEvent) : TransferRecord :=
  { time_ms := event.event_time
    player_uuid := event.player_uuid.getD ""
    player_name := event.player_name.getD ""
    item_fingerprint := fingerprint_of event
    count := event.count
    storage_mod := event.storage_mod.getD ""
    storage_id := event.storage_id.getD ""
    trace_id := event.trace_id.getD "" }

/-- `Analyzer::find_transfer`: newest-to-oldest search of the cache. -/
def find_transfer (cache : List TransferRecord) (player_uuid item_fingerprint : String)
    (count : Int) (window_ms event_time : Int) : Option TransferRecord :=
  cache.reverse.find? fun record =>
    decide (record.player_uuid = player_uuid ∧
      record.item_fingerprint = item_fingerprint ∧
      record.count = count ∧
      |event_time - record.time_ms| ≤ window_ms)

/-- The R2 whitelist of `analyze_batch`. -/
def origin_whitelist : List String :=
  ["world_pickup", "container_click", "storage_transfer", "craft", "smelt",
   "trade", "loot", "barter", "fishing", "smithing", "stonecutting",
   "grindstone", "anvil", "brewing", "loom", "cartography", "enchant",
   "inventory_audit", "command"]

/-- `is_world_pickup` from `analyzer.rs`. -/
def is_world_pickup (event : IngestEvent) (origin_type : String) : Bool :=
  if origin_type = "world_pickup" then true
  else
    match event.storage_id with
    | some s => decide (s = "world")
    | none => false

/-- The snapshot branch of `analyze_batch` (R9 / R12 emission). -/
def snapshot_anomalies (rules : List (String × KeyItemRule)) (event : IngestEvent) :
    List AnomalyRow :=
  match alist.find rules event.item_id with
  | none => []
  | some rule =>
      let threshold := rule.effective_threshold
      if 0 < threshold ∧ threshold < event.count.toNat then
        if event.event_type = "INVENTORY_SNAPSHOT" then
          [build_anomaly event rule.effective_risk_level "R9"
            "Inventory snapshot exceeds threshold" none]
        else
          [build_anomaly event rule.effective_risk_level "R12"
            "Storage snapshot exceeds threshold" none]
      else []

/-- The R3 / R5 / R8 block of `analyze_batch`, together with the
unconditional `origin_seen` update for a non-empty `origin_id`. -/
def step_origin (origin_seen : List (String × (String × Int))) (event : IngestEvent)
    (player_uuid origin_id origin_type : String) (has_transfer : Bool)
    (tm : Option TransferRecord) :
    List AnomalyRow × List (String × (String × Int)) :=
  if origin_id = "" then ([], origin_seen)
  else
    let anoms :=
      match alist.find origin_seen origin_id with
      | none => []
      | some (prev_player, prev_time) =>
          let delta := |event.event_time - prev_time|
          if prev_player ≠ player_uuid ∧ delta < 10000 then
            [build_anomaly event "HIGH" "R3" "Duplicate origin_id across players" tm]
          else if prev_player = player_uuid ∧ has_transfer = false ∧
              is_world_pickup event origin_type then
            if delta < 30000 then
              [build_anomaly event "MEDIUM" "R5"
                "Origin id reused by same player (possible duplication)" tm]
            else if delta < 6 * 60 * 60 * 1000 then
              [build_anomaly event "MEDIUM" "R8"
                "Origin id reused by same player (long window)" tm]
            else []
          else []
    (anoms, alist.upsert origin_seen origin_id (player_uuid, event.event_time))

/-- The R6 duplicate-world-pickup block of `analyze_batch`
(`DUP_PICKUP_WINDOW_MS = 15000`, `DUP_PICKUP_THRESHOLD = 2`). -/
def step_dup_pickup (pickup_windows : List ((String × String × String) × List Int))
    (event : IngestEvent) (player_uuid origin_type : String) (has_transfer : Bool)
    (tm : Option TransferRecord) :
    List AnomalyRow × List ((String × String × String) × List Int) :=
  if has_transfer = false ∧ is_world_pickup event origin_type then
    let nbt_hash := event.nbt_hash.getD ""
    let key := (player_uuid, event.item_id, nbt_hash)
    let window := (alist.find pickup_windows key).getD []
    let window := window ++ [event.event_time]
    let window := window.dropWhile fun front => decide (15000 < event.event_time - front)
    let anoms :=
      if window.length = 2 then
        [build_anomaly event "MEDIUM" "R6"
          "Rapid repeated world pickup of identical item" tm]
      else []
    (anoms, alist.upsert pickup_windows key window)
  else ([], pickup_windows)

/-- The R10 strict-pickup block of `analyze_batch`; on fire the window for
the key is cleared. -/
def step_strict (strict_pickup_windows : List ((String × String) × List CountRecord))
    (event : IngestEvent) (player_uuid origin_type : String) (has_transfer : Bool)
    (tm : Option TransferRecord) (strict_pickup_window_ms strict_pickup_threshold : Int) :
    List AnomalyRow × List ((String × String) × List CountRecord) :=
  if 0 < strict_pickup_window_ms ∧ 0 < strict_pickup_threshold ∧
      has_transfer = false ∧ is_world_pickup event origin_type then
    let key := (player_uuid, event.item_id)
    let window := (alist.find strict_pickup_windows key).getD []
    let window := window ++ [{ time_ms := event.event_time, count := event.count }]
    let window := window.dropWhile fun front =>
      decide (strict_pickup_window_ms < event.event_time - front.time_ms)
    let sum := (window.map (·.count)).sum
    if strict_pickup_threshold ≤ sum then
      ([build_anomaly event "HIGH" "R10"
          "Large world pickup volume in short window" tm],
        alist.upsert strict_pickup_windows key [])
    else ([], alist.upsert strict_pickup_windows key window)
  else ([], strict_pickup_windows)

/-- The R7 inventory-audit block of `analyze_batch`
(`AUDIT_WINDOW_MS = 30000`, `AUDIT_THRESHOLD = 16`, rising edge only). -/
def step_audit (audit_windows : List ((String × String × String) × List AuditRecord))
    (event : IngestEvent) (player_uuid origin_type : String) (has_transfer : Bool)
    (tm : Option TransferRecord) :
    List AnomalyRow × List ((String × String × String) × List AuditRecord) :=
  if origin_type = "inventory_audit" ∧ has_transfer = false then
    let nbt_hash := event.nbt_hash.getD ""
    let key := (player_uuid, event.item_id, nbt_hash)
    let window := (alist.find audit_windows key).getD []
    let sum_before : Int := (window.map (·.count)).sum
    let window := window ++ [{ time_ms := event.event_time, count := event.count }]
    let window := window.dropWhile fun front =>
      decide (30000 < event.event_time - front.time_ms)
    let sum_after : Int := (window.map (·.count)).sum
    let anoms :=
      if sum_before < 16 ∧ 16 ≤ sum_after then
        [build_anomaly event "HIGH" "R7"
          "Inventory gain without source (rapid increase)" tm]
      else []
    (anoms, alist.upsert audit_windows key window)
  else ([], audit_windows)

/-- The R4 rule block of `analyze_batch` together with the final R0
emission.  A rule whose effective threshold is 0 hits the `continue` in the
source, which skips the R4 update and the R0 emission alike. -/
def step_r4_r0 (key_item_windows : List ((String × String) × List Int))
    (rules : List (String × KeyItemRule)) (event : IngestEvent)
    (player_uuid : String) (key_item_window_ms : Int)
    (tm : Option TransferRecord) :
    List AnomalyRow × List ((String × String) × List Int) :=
  let r0 :=
    if tm.isSome then [build_anomaly event "LOW" "R0" "Matched transfer chain" tm]
    else []
  match alist.find rules event.item_id with
  | none => (r0, key_item_windows)
  | some rule =>
      let threshold := rule.effective_threshold
      if threshold = 0 then ([], key_item_windows)
      else
        let key := (player_uuid, event.item_id)
        let window := (alist.find key_item_windows key).getD []
        let window := window ++ List.replicate (max event.count 0).toNat event.event_time
        let window := window.dropWhile fun front =>
          decide (key_item_window_ms < event.event_time - front)
        let anoms :=
          if threshold < window.length then
            [build_anomaly event rule.effective_risk_level "R4"
              "Rare item threshold exceeded" tm]
          else []
        (anoms ++ r0, alist.upsert key_item_windows key window)

/-- The key-item window value `step_r4_r0` stores for a key: enqueue
`count` copies of the event time, then evict the old front prefix. -/
def key_window_next (key_item_windows : List ((String × String) × List Int))
    (key : String × String) (event : IngestEvent) (key_item_window_ms : Int) :
    List Int :=
  (((alist.find key_item_windows key).getD []) ++
      List.replicate (max event.count 0).toNat event.event_time).dropWhile
    fun front => decide (key_item_window_ms < event.event_time - front)

/-- The ACQUIRE branch of the per-event loop of `Analyzer::analyze_batch`. -/
def process_acquire (rules : List (String × KeyItemRule))
    (transfer_window_ms key_item_window_ms strict_pickup_window_ms
      strict_pickup_threshold : Int) (st : Analyzer) (event : IngestEvent) :
    Analyzer × List AnomalyRow :=
  let player_uuid := event.player_uuid.getD ""
  let item_fingerprint := fingerprint_of event
  let origin_id := event.origin_id.getD ""
  let origin_type := event.origin_type.getD ""
  let tm := find_transfer st.transfer_cache player_uuid item_fingerprint
    event.count transfer_window_ms event.event_time
  let has_transfer := tm.isSome
  let a1 :=
    if origin_id = "" ∧ has_transfer = false then
      [build_anomaly event "HIGH" "R1"
        "ACQUIRE missing origin and no transfer match" tm]
    else []
  let a2 :=
    if origin_type ≠ "" ∧ origin_whitelist.contains origin_type = false ∧
        has_transfer = false then
      [build_anomaly event "HIGH" "R2" "ACQUIRE origin_type not in whitelist" tm]
    else []
  let s3 := step_origin st.origin_seen event player_uuid origin_id origin_type
    has_transfer tm
  let s6 := step_dup_pickup st.pickup_windows event player_uuid origin_type
    has_transfer tm
  let s10 := step_strict st.strict_pickup_windows event player_uuid origin_type
    has_transfer tm strict_pickup_window_ms strict_pickup_threshold
  let s7 := step_audit st.audit_windows event player_uuid origin_type
    has_transfer tm
  let s4 := step_r4_r0 st.key_item_windows rules event player_uuid
    key_item_window_ms tm
  ({ st with
      origin_seen := s3.2
      pickup_windows := s6.2
      strict_pickup_windows := s10.2
      audit_windows := s7.2
      key_item_windows := s4.2 },
    a1 ++ a2 ++ s3.1 ++ s6.1 ++ s10.1 ++ s7.1 ++ s4.1)

/-- The body of the per-event loop of `Analyzer::analyze_batch`.  Returns
the updated state and the anomalies emitted for this event, in emission
order. -/
def process_event (rules : List (String × KeyItemRule))
    (transfer_window_ms key_item_window_ms strict_pickup_window_ms
      strict_pickup_threshold : Int) (st : Analyzer) (event : IngestEvent) :
    Analyzer × List AnomalyRow :=
  if str_trim event.item_id = "" ∨ event.item_id = "minecraft:air" ∨ event.count ≤ 0 then
    (st, [])
  else if event.event_type = "INVENTORY_SNAPSHOT" ∨
      event.event_type = "STORAGE_SNAPSHOT" then
    (st, snapshot_anomalies rules event)
  else if event.event_type = "TRANSFER" then
    ({ st with transfer_cache := st.transfer_cache ++ [transfer_record_of event] }, [])
  else if event.event_type ≠ "ACQUIRE" then (st, [])
  else
    process_acquire rules transfer_window_ms key_item_window_ms
      strict_pickup_window_ms strict_pickup_threshold st event

/-- `Analyzer::cleanup`.  Mirrors the source exactly: the transfer cache and
each window deque lose their old front prefix; emptied windows are removed
from `pickup_windows`, `audit_windows` and (only when the window parameter
is positive) `strict_pickup_windows`, but not from `key_item_windows`; the
source contains no eviction for `origin_seen`. -/
def cleanup (st : Analyzer)
    (now transfer_window_ms key_item_window_ms strict_pickup_window_ms : Int) :
    Analyzer :=
  { transfer_cache :=
      st.transfer_cache.dropWhile fun front =>
        decide (transfer_window_ms < now - front.time_ms)
    origin_seen := st.origin_seen
    key_item_windows :=
      st.key_item_windows.map fun kv =>
        (kv.1, kv.2.dropWhile fun front => decide (key_item_window_ms < now - front))
    pickup_windows :=
      (st.pickup_windows.map fun kv =>
        (kv.1, kv.2.dropWhile fun front => decide (15000 < now - front))).filter
        fun kv => !kv.2.isEmpty
    audit_windows :=
      (st.audit_windows.map fun kv =>
        (kv.1, kv.2.dropWhile fun front => decide (30000 < now - front.time_ms))).filter
        fun kv => !kv.2.isEmpty
    strict_pickup_windows :=
      if 0 < strict_pickup_window_ms then
        (st.strict_pickup_windows.map fun kv =>
          (kv.1, kv.2.dropWhile fun front =>
            decide (strict_pickup_window_ms < now - front.time_ms))).filter
          fun kv => !kv.2.isEmpty
      else st.strict_pickup_windows }

/-- The event-processing fold of `analyze_batch` (after cleanup). -/
def process_list (rules : List (String × KeyItemRule))
    (transfer_window_ms key_item_window_ms strict_pickup_window_ms
      strict_pickup_threshold : Int) (st : Analyzer) :
    List IngestEvent → Analyzer × List AnomalyRow
  | [] => (st, [])
  | event :: rest =>
      let step := process_event rules transfer_window_ms key_item_window_ms
        strict_pickup_window_ms strict_pickup_threshold st event
      let tail := process_list rules transfer_window_ms key_item_window_ms
        strict_pickup_window_ms strict_pickup_threshold step.1 rest
      (tail.1, step.2 ++ tail.2)

/-- The per-event trace of the fold of `analyze_batch`: for each event, the
state after processing it and the anomalies it emitted. -/
def process_trace (rules : List (String × KeyItemRule))
    (transfer_window_ms key_item_window_ms strict_pickup_window_ms
      strict_pickup_threshold : Int) (st : Analyzer) :
    List IngestEvent → List (Analyzer × List AnomalyRow)
  | [] => []
  | event :: rest =>
      let step := process_event rules transfer_window_ms key_item_window_ms
        strict_pickup_window_ms strict_pickup_threshold st event
      step :: process_trace rules transfer_window_ms key_item_window_ms
        strict_pickup_window_ms strict_pickup_threshold step.1 rest

/-- `Analyzer::analyze_batch`.  `now` stands for the `current_millis()`
wall-clock read. -/
def analyze_batch (st : Analyzer) (events : List IngestEvent)
    (rules : List (String × KeyItemRule))
    (transfer_window_ms key_item_window_ms strict_pickup_window_ms
      strict_pickup_threshold : Int) (now : Int) : Analyzer × List AnomalyRow :=
  process_list rules transfer_window_ms key_item_window_ms
    strict_pickup_window_ms strict_pickup_threshold
    (cleanup st now transfer_window_ms key_item_window_ms strict_pickup_window_ms)
    events

/-- Number of anomalies in a list carrying a given rule id. -/
def countRule (anoms : List AnomalyRow) (rid : String) : Nat :=
  anoms.countP fun a => decide (a.rule_id = rid)

/-- A minimal JSON value type standing for `serde_json::Value`. -/
inductive Json where
  | null : Json
  | bool (b : Bool) : Json
  | num (n : Int) : Json
  | str (s : String) : Json
  | arr (items : List Json) : Json
  | obj (fields : List (String × Json)) : Json

/-- `Value::is_null`. -/
def Json.isNull : Json → Bool
  | Json.null => true
  | _ => false

/-- `Value::get(key)` on a JSON object. -/
def Json.get (j : Json) (key : String) : Option Json :=
  match j with
  | Json.obj fields => alist.find fields key
  | _ => none

/-- `Value::as_bool`. -/
def Json.asBool : Json → Option Bool
  | Json.bool b => some b
  | _ => none

/-- `Value::as_str`. -/
def Json.asStr : Json → Option String
  | Json.str s => some s
  | _ => none

/-- The error type of the application layer (`AppError`). -/
inductive AppError where
  | unauthorized : AppError
  | badRequest (message : String) : AppError
  | internal (message : String) : AppError
deriving DecidableEq

/-- `backend-domain/src/entities/model.rs`: `ModConfigEnvelope`. -/
structure ModConfigEnvelope where
  server_id : String
  revision : Nat
  updated_at_ms : Int
  updated_by : String
  checksum_sha256 : String
  config : Json

/-- `backend-domain/src/entities/model.rs`: `ModConfigPutRequest`. -/
structure ModConfigPutRequest where
  server_id : Option String
  updated_by : Option String
  config : Json

/-- `normalize_text` from `mod_config_commands.rs` (trim, drop empties,
lowercase). -/
def normalize_text (value : Option String) : Option String :=
  match value with
  | none => none
  | some raw =>
      let trimmed := str_trim raw
      if trimmed = "" then none else some (str_to_lower trimmed)

/-- `resolve_server_id` from `mod_config_commands.rs`. -/
def resolve_server_id (query_server_id payload_server_id : Option String) : String :=
  match normalize_text query_server_id with
  | some v => v
  | none =>
      match normalize_text payload_server_id with
      | some v => v
      | none => "server-01"

/-- `sanitize_server_id` from `config_files.rs`. -/
def sanitize_server_id (server_id : String) : String :=
  let value := str_to_lower (str_trim server_id)
  let value := if value = "" then "default" else value
  String.mk (value.toList.map fun ch =>
    if ch.isAlphanum ∨ ch = '-' ∨ ch = '_' then ch else '_')

/-- The mod-config state visible to `put_mod_config`: the in-memory cache
(`state.mod_configs`) and the on-disk store keyed by the sanitized server id
(the `mod-config/<sanitized>.json` files behind
`ConfigFileRepository::{load,save}_mod_config`). -/
structure ModState where
  cache : List (String × ModConfigEnvelope)
  disk : List (String × ModConfigEnvelope)

/-- `ConfigFileRepository::load_mod_config` on the typed disk model: absent
file yields `none`. -/
def mod_disk_load (st : ModState) (server_id : String) : Option ModConfigEnvelope :=
  alist.find st.disk (sanitize_server_id server_id)

/-- `put_mod_config` from `mod_config_commands.rs`.  `checksum` stands for
`hex(sha256(serde_json::to_vec(config)))` (external `sha2` crate) and `now`
for `Utc::now().timestamp_millis()`; repository I/O errors are outside the
model, so the disk load and save always succeed. -/
def put_mod_config (checksum : Json → String) (now : Int) (st : ModState)
    (query_server_id : Option String) (payload : ModConfigPutRequest) :
    Except AppError (ModState × ModConfigEnvelope) :=
  let server_id := resolve_server_id query_server_id payload.server_id
  let updated_by := (normalize_text payload.updated_by).getD "desktop"
  if payload.config.isNull then
    Except.error (AppError.badRequest "config must not be null")
  else
    let previous :=
      match alist.find st.cache server_id with
      | some envelope => some envelope
      | none => mod_disk_load st server_id
    let revision :=
      match previous with
      | some item => item.revision + 1
      | none => 1
    let envelope : ModConfigEnvelope :=
      { server_id := server_id
        revision := revision
        updated_at_ms := now
        updated_by := updated_by
        checksum_sha256 := checksum payload.config
        config := payload.config }
    Except.ok
      ({ cache := alist.upsert st.cache server_id envelope
         disk := alist.upsert st.disk (sanitize_server_id server_id) envelope },
        envelope)

/-- `backend-domain/src/entities/model.rs`: `AlertDeliveryRecord`. -/
structure AlertDeliveryRecord where
  timestamp_ms : Int
  status : String
  mode : String
  attempts : Nat
  alert_count : Nat
  rule_ids : List String
  error : Option String
deriving DecidableEq, Repr

/-- `RuntimeConfig` as constructed by `AppConfig::to_runtime_config`
(the copy of the struct under `entities/model.rs` is missing the two
`op_token` fields that `to_runtime_config` and `op_token_commands.rs`
populate and read; they are included here). -/
structure RuntimeConfig where
  bind_addr : String
  api_token : Option String
  op_token_admin_ids : List String
  op_token_allowed_group_ids : List String
  report_dir : String
  public_base_url : String
  webhook_url : Option String
  webhook_template : Option String
  alert_webhook_url : Option String
  alert_webhook_template : Option String
  alert_webhook_token : Option String
  alert_group_id : Option Int
  key_items_path : String
  item_registry_path : String
  transfer_window_seconds : Nat
  key_item_window_minutes : Nat
  strict_enabled : Bool
  strict_pickup_window_seconds : Nat
  strict_pickup_threshold : Nat
  max_body_bytes : Nat
  request_timeout_seconds : Nat
  report_hour : Nat
  report_minute : Nat
deriving DecidableEq, Repr

/-- `should_emit_alert` from `alert_service.rs`. -/
def should_emit_alert (rule_id : String) : Bool :=
  rule_id = "R4" ∨ rule_id = "R10" ∨ rule_id = "R12"

/-- `resolve_alert_url` from `alert_service.rs`. -/
def resolve_alert_url (config : RuntimeConfig) : Except String String :=
  match config.alert_webhook_url with
  | some url =>
      if str_trim url ≠ "" then Except.ok url
      else
        match config.webhook_url with
        | some url' => if str_trim url' ≠ "" then Except.ok url'
            else Except.error "alert webhook url not configured"
        | none => Except.error "alert webhook url not configured"
  | none =>
      match config.webhook_url with
      | some url' => if str_trim url' ≠ "" then Except.ok url'
          else Except.error "alert webhook url not configured"
      | none => Except.error "alert webhook url not configured"

/-- `resolve_alert_mode` from `alert_service.rs`. -/
def resolve_alert_mode (config : RuntimeConfig) : String :=
  match resolve_alert_url config with
  | Except.ok url =>
      if str_starts_with url "ws://" ∨ str_starts_with url "wss://" then "ws"
      else "http"
  | Except.error _ => "unset"

/-- The retry loop of `send_alerts_with_retry`, counting `current` up to
`attempts`.  `sendOutcome k` stands for the transport result of attempt `k`
(`none` meaning the send succeeded). -/
def retry_from (sendOutcome : Nat → Option String) (attempts current : Nat) :
    Nat × Option String :=
  match sendOutcome current with
  | none => (current, none)
  | some message =>
      if h : attempts ≤ current then (current, some message)
      else retry_from sendOutcome attempts (current + 1)
termination_by attempts - current
decreasing_by omega

/-- `send_alerts_with_retry` from `alert_service.rs`. -/
def send_alerts_with_retry (sendOutcome : Nat → Option String)
    (retry_attempts : Nat) : Nat × Option String :=
  retry_from sendOutcome (max retry_attempts 1) 1

/-- The ordered-set fold the source performs with a `BTreeSet`. -/
def btree_insert (s : List String) (x : String) : List String :=
  match s with
  | [] => [x]
  | y :: rest =>
      if x < y then x :: y :: rest
      else if x = y then y :: rest
      else y :: btree_insert rest x

/-- Collecting a list into a `BTreeSet` and back into a sorted vector. -/
def btree_of (xs : List String) : List String :=
  xs.foldl btree_insert []

/-- `push_delivery`: append, then pop the front while over the limit. -/
def trim_front {α : Type} (limit : Nat) (l : List α) : List α :=
  if limit < l.length then trim_front limit l.tail else l
termination_by l.length
decreasing_by
  simp_all [List.length_tail]
  omega

/-- `push_delivery` from `alert_service.rs`. -/
def push_delivery (deliveries : List AlertDeliveryRecord) (history_limit : Nat)
    (record : AlertDeliveryRecord) : List AlertDeliveryRecord :=
  trim_front (max history_limit 1) (deliveries ++ [record])

/-- `DefaultAlertService::spawn_alerts`.  The spawned task is inlined:
`sendOutcome` stands for the transport attempts, `now` for the
`Utc::now().timestamp_millis()` read when the record is built.  Returns the
delivery ring after the task completes and the record it wrote (`none` when
the filter emptied the batch and nothing was attempted or recorded). -/
def spawn_alerts (sendOutcome : Nat → Option String) (now : Int)
    (config : RuntimeConfig) (deliveries : List AlertDeliveryRecord)
    (history_limit : Nat) (anomalies : List AnomalyRow) :
    List AlertDeliveryRecord × Option AlertDeliveryRecord :=
  let alerts := anomalies.filter fun row => should_emit_alert row.rule_id
  if alerts.isEmpty then (deliveries, none)
  else
    let mode := resolve_alert_mode config
    let outcome := send_alerts_with_retry sendOutcome 3
    let status := if outcome.2 = none then "success" else "failed"
    let rule_ids := btree_of (alerts.map (·.rule_id))
    let record : AlertDeliveryRecord :=
      { timestamp_ms := now
        status := status
        mode := mode
        attempts := outcome.1
        alert_count := alerts.length
        rule_ids := rule_ids
        error := outcome.2 }
    (push_delivery deliveries history_limit record, some record)

/-- `backend-domain/src/entities/model.rs`: `RconConfig`. -/
structure RconConfig where
  host : String
  port : Nat
  password : String
  enabled : Bool
  source : Option String
deriving DecidableEq, Repr

/-- `RconConfig::default()`. -/
def RconConfig.defaultValue : RconConfig :=
  { host := "127.0.0.1"
    port := 25575
    password := ""
    enabled := false
    source := none }

/-- `backend-domain/src/entities/model.rs`: `ItemRegistryEntry`. -/
structure ItemRegistryEntry where
  item_id : String
  name : Option String
  names : List (String × String)
  namespace_ : Option String
  path : Option String
deriving DecidableEq, Repr

/-- `backend-domain/src/entities/model.rs`: `ModConfigAck`. -/
structure ModConfigAck where
  server_id : String
  revision : Nat
  status : String
  message : Option String
  applied_at_ms : Int
  changed_keys : List String
deriving DecidableEq, Repr

/-- The filesystem visible to `ConfigFileRepository`: a map from paths to
file contents. -/
structure FileSystem where
  files : List (String × String)

/-- `Path::exists`. -/
def fs_exists (fs : FileSystem) (path : String) : Bool :=
  (alist.find fs.files path).isSome

/-- `tokio::fs::read_to_string`: absent paths produce an I/O error. -/
def read_to_string (fs : FileSystem) (path : String) : Except String String :=
  match alist.find fs.files path with
  | some content => Except.ok content
  | none => Except.error "No such file or directory"

/-- `ConfigFileRepository::load_key_items`.  The source reads the file
without an existence check, so an absent file surfaces the read error.
`parseYaml` stands for `serde_yaml::from_str`. -/
def load_key_items (parseYaml : String → Except String (List KeyItemRule))
    (fs : FileSystem) (path : String) :
    Except String (List (String × KeyItemRule)) :=
  match read_to_string fs path with
  | Except.error e => Except.error e
  | Except.ok content =>
      match parseYaml content with
      | Except.error e => Except.error e
      | Except.ok rules => Except.ok (rules.map fun rule => (rule.item_id, rule))

/-- `ConfigFileRepository::load_item_registry`: absent file yields the empty
vector.  `parseJson` stands for `serde_json::from_str`. -/
def load_item_registry (parseJson : String → Except String (List ItemRegistryEntry))
    (fs : FileSystem) (path : String) : Except String (List ItemRegistryEntry) :=
  if fs_exists fs path = false then Except.ok []
  else
    match read_to_string fs path with
    | Except.error e => Except.error e
    | Except.ok content => parseJson content

/-- `ConfigFileRepository::load_rcon_config`: absent file yields the default
config.  `rcon_path` stands for `resolve_rcon_path()` and `parseToml` for
`toml::from_str`. -/
def load_rcon_config (parseToml : String → Except String RconConfig)
    (fs : FileSystem) (rcon_path : String) : Except String RconConfig :=
  if fs_exists fs rcon_path = false then Except.ok RconConfig.defaultValue
  else
    match read_to_string fs rcon_path with
    | Except.error e => Except.error e
    | Except.ok content => parseToml content

/-- `resolve_mod_config_path` relative to the configuration directory. -/
def mod_config_path (config_dir server_id : String) : String :=
  config_dir ++ "/mod-config/" ++ sanitize_server_id server_id ++ ".json"

/-- `resolve_mod_config_ack_path` relative to the configuration directory. -/
def mod_config_ack_path (config_dir server_id : String) : String :=
  config_dir ++ "/mod-config/acks/" ++ sanitize_server_id server_id ++ ".json"

/-- `ConfigFileRepository::load_mod_config`: absent file yields `none`. -/
def load_mod_config (parseJson : String → Except String ModConfigEnvelope)
    (fs : FileSystem) (config_dir server_id : String) :
    Except String (Option ModConfigEnvelope) :=
  let path := mod_config_path config_dir server_id
  if fs_exists fs path = false then Except.ok none
  else
    match read_to_string fs path with
    | Except.error e => Except.error e
    | Except.ok content => (parseJson content).map some

/-- `ConfigFileRepository::load_mod_config_ack`: absent file yields `none`. -/
def load_mod_config_ack (parseJson : String → Except String ModConfigAck)
    (fs : FileSystem) (config_dir server_id : String) :
    Except String (Option ModConfigAck) :=
  let path := mod_config_ack_path config_dir server_id
  if fs_exists fs path = false then Except.ok none
  else
    match read_to_string fs path with
    | Except.error e => Except.error e
    | Except.ok content => (parseJson content).map some

/-- `OpTokenIssueRequest` (fields per its construction sites in
`ops_handlers.rs` and `napcat_bridge.rs`). -/
structure OpTokenIssueRequest where
  server_id : Option String
  operator_id : Option String
  group_id : Option String
deriving DecidableEq, Repr

/-- `OpTokenIssueResponse`. -/
structure OpTokenIssueResponse where
  token : String
  day : String
  expires_at : String
deriving DecidableEq, Repr

/-- `normalize_optional_text` from `op_token_commands.rs` (trim only, no
lowercasing). -/
def normalize_optional_text (value : Option String) : Option String :=
  match value with
  | none => none
  | some raw =>
      let trimmed := str_trim raw
      if trimmed = "" then none else some trimmed

/-- `normalize_server_id` from `op_token_commands.rs`. -/
def op_normalize_server_id (value : Option String) : String :=
  match normalize_optional_text value with
  | some item => str_to_lower item
  | none => "server-01"

/-- `is_group_authorized` from `op_token_commands.rs`. -/
def is_group_authorized (allowed_group_ids : List String) (group_id : String) : Bool :=
  allowed_group_ids.any fun candidate => candidate = group_id

/-- `authorize_issue` from `op_token_commands.rs`. -/
def authorize_issue (config : RuntimeConfig) (group_id : Option String) :
    Except AppError Unit :=
  match (group_id.map str_trim).filter (fun value => value ≠ "") with
  | none => Except.error (AppError.badRequest "group_id is required")
  | some gid =>
      if is_group_authorized config.op_token_allowed_group_ids gid then Except.ok ()
      else Except.error AppError.unauthorized

/-- The two-hex-digit rendering a `u8` receives from the 02x format used in
`sign_hmac_sha256`. -/
def hex_digit_char (n : Nat) : Char :=
  if n < 10 then Char.ofNat ('0'.toNat + n) else Char.ofNat ('a'.toNat + (n - 10))

/-- Hex rendering of one digest byte (`b < 256`). -/
def byte_to_hex (b : Nat) : String :=
  String.mk [hex_digit_char (b / 16 % 16), hex_digit_char (b % 16)]

/-- `sign_hmac_sha256` from `op_token_commands.rs`: the `hmac`/`sha2`
crates compute the 32-byte digest (`hmac` parameter); the function itself
renders it as lowercase hex. -/
def sign_hmac_sha256 (hmac : String → String → List Nat) (secret payload : String) :
    String :=
  ((hmac secret payload).map byte_to_hex).foldl (fun acc part => acc ++ part) ""

/-- `issue_op_token` from `op_token_commands.rs`.  `day` stands for the
`Local::now` yyyymmdd rendering, `token_id` for the fresh simple UUID,
`expires_at` for `next_local_midnight_rfc3339()`, and `mod_config` for the
envelope `mod_config_queries::get_mod_config` resolves for the server. -/
def issue_op_token (hmac : String → String → List Nat)
    (day token_id expires_at : String) (config : RuntimeConfig)
    (mod_config : Option ModConfigEnvelope) (payload : OpTokenIssueRequest) :
    Except AppError OpTokenIssueResponse :=
  let server_id := op_normalize_server_id payload.server_id
  let _operator_id := (normalize_optional_text payload.operator_id).getD "unknown"
  let group_id := normalize_optional_text payload.group_id
  match authorize_issue config group_id with
  | Except.error e => Except.error e
  | Except.ok _ =>
      match mod_config with
      | none =>
          Except.error (AppError.badRequest
            ("mod config not found for server '" ++ server_id ++ "'"))
      | some envelope =>
          match (envelope.config.get "op_command_token_required").bind Json.asBool with
          | none =>
              Except.error (AppError.badRequest
                "mod config field 'op_command_token_required' must be boolean")
          | some token_required =>
              if token_required = false then
                Except.error (AppError.badRequest
                  ("op_command_token_required is disabled for server '" ++
                    server_id ++ "'"))
              else
                match (((envelope.config.get "op_command_token_secret").bind
                    Json.asStr).map str_trim).filter (fun value => value ≠ "") with
                | none =>
                    Except.error (AppError.badRequest
                      "mod config field 'op_command_token_secret' must be a non-empty string")
                | some secret =>
                    let payload_to_sign :=
                      "lattice" ++ "|" ++ "v2" ++ "|" ++ day ++ "|" ++ token_id
                    let signature := sign_hmac_sha256 hmac secret payload_to_sign
                    let token :=
                      "lattice" ++ "." ++ "v2" ++ "." ++ day ++ "." ++ token_id ++
                        "." ++ signature
                    Except.ok { token := token, day := day, expires_at := expires_at }

/-! ### Concrete fixtures used by witnesses and counterexamples -/

/-- A blank event all concrete test events are built from. -/
def sample_event : IngestEvent :=
  { event_id := ""
    event_time := 0
    server_id := none
    event_type := ""
    player_uuid := none
    player_name := none
    item_id := ""
    count := 0
    nbt_hash := none
    origin_id := none
    origin_type := none
    origin_ref := none
    source_type := none
    source_ref := none
    storage_mod := none
    storage_id := none
    actor_type := none
    trace_id := none
    item_fingerprint := none
    dim := none
    x := none
    y := none
    z := none }

/-- A blank transfer record for fixtures. -/
def sample_transfer : TransferRecord :=
  { time_ms := 0
    player_uuid := ""
    player_name := ""
    item_fingerprint := ""
    count := 0
    storage_mod := ""
    storage_id := ""
    trace_id := "" }

/-- ACQUIRE of `mod:x` by player A at t = 900 matching [[fix_transfer]]. -/
def fix_acquire : IngestEvent :=
  { sample_event with
      event_type := "ACQUIRE"
      event_time := 900
      player_uuid := some "A"
      item_id := "mod:x"
      count := 4
      item_fingerprint := some "mod:x:" }

/-- Transfer record for player A, `mod:x:`, count 4, t = 500. -/
def fix_transfer : TransferRecord :=
  { sample_transfer with
      time_ms := 500
      player_uuid := "A"
      item_fingerprint := "mod:x:"
      count := 4 }

/-- Analyzer state holding only [[fix_transfer]] in the cache. -/
def fix_state : Analyzer :=
  { Analyzer.init with transfer_cache := [fix_transfer] }

/-- A disabled rule for `mod:x` (`threshold == 0`, i.e. effective 0). -/
def fix_zero_rule : KeyItemRule :=
  { item_id := "mod:x"
    threshold := some 0
    max_per_10m := none
    risk_level := some "HIGH"
    weight := none }

/-- An enabled rule for `mod:gem` with threshold 3 and risk HIGH. -/
def fix_gem_rule : KeyItemRule :=
  { item_id := "mod:gem"
    threshold := some 3
    max_per_10m := none
    risk_level := some "HIGH"
    weight := none }

/-- One ACQUIRE of `mod:gem` count 1 by player A at the given time. -/
def fix_gem_event (t : Int) : IngestEvent :=
  { sample_event with
      event_type := "ACQUIRE"
      event_time := t
      player_uuid := some "A"
      item_id := "mod:gem"
      count := 1
      origin_id := some ("o" ++ toString t)
      origin_type := some "loot" }

/-- A minimal anomaly row carrying only a rule id, for alert fixtures. -/
def fix_anomaly (rid : String) : AnomalyRow :=
  { event_time := 0
    server_id := ""
    player_uuid := ""
    player_name := ""
    item_id := ""
    count := 0
    risk_level := ""
    rule_id := rid
    reason := ""
    evidence :=
      { transfer := none
        origin_id := none
        origin_type := none
        origin_ref := none
        trace_id := none } }

/-- A blank runtime configuration for fixtures. -/
def fix_config : RuntimeConfig :=
  { bind_addr := "127.0.0.1:3234"
    api_token := none
    op_token_admin_ids := []
    op_token_allowed_group_ids := []
    report_dir := "./reports"
    public_base_url := ""
    webhook_url := none
    webhook_template := none
    alert_webhook_url := none
    alert_webhook_template := none
    alert_webhook_token := none
    alert_group_id := none
    key_items_path := ""
    item_registry_path := ""
    transfer_window_seconds := 2
    key_item_window_minutes := 10
    strict_enabled := false
    strict_pickup_window_seconds := 30
    strict_pickup_threshold := 256
    max_body_bytes := 1024
    request_timeout_seconds := 15
    report_hour := 0
    report_minute := 5 }

/-- A stub HMAC returning 32 copies of byte 0xab, for the token witness. -/
def fix_hmac : String → String → List Nat :=
  fun _ _ => List.replicate 32 171

/-- A mod-config envelope enabling OP tokens with secret `secret`. -/
def fix_envelope : ModConfigEnvelope :=
  { server_id := "server-01"
    revision := 1
    updated_at_ms := 0
    updated_by := "desktop"
    checksum_sha256 := ""
    config := Json.obj [("op_command_token_required", Json.bool true),
      ("op_command_token_secret", Json.str "secret")] }

/-- A runtime configuration allowing group `g1` to request tokens. -/
def fix_op_config : RuntimeConfig :=
  { fix_config with op_token_allowed_group_ids := ["g1"] }

/-- A token request from group `g1`. -/
def fix_op_payload : OpTokenIssueRequest :=
  { server_id := none, operator_id := none, group_id := some "g1" }

/-- The hex character set of the 02x format. -/
def hex_chars : List Char :=
  "0123456789abcdef".toList

/-- Analyzer state with one stale and one fresh transfer record. -/
def fix_c3_state : Analyzer :=
  { Analyzer.init with
      transfer_cache := [{ sample_transfer with time_ms := 100 },
        { sample_transfer with time_ms := 99000 }] }

/-! ### Generic lemmas about the container embeddings -/

theorem alist.find_upsert_self {α β : Type} [DecidableEq α]
    (l : List (α × β)) (k : α) (v : β) :
    alist.find (alist.upsert l k v) k = some v := by
  induction l with
  | nil => simp [alist.find, alist.upsert]
  | cons hd tl ih =>
      obtain ⟨k', v'⟩ := hd
      by_cases h : k' = k
      · simp [alist.find, alist.upsert, h]
      · simp [alist.find, alist.upsert, h, ih]

theorem alist.find_upsert_ne {α β : Type} [DecidableEq α]
    (l : List (α × β)) (k k' : α) (v : β) (h : k' ≠ k) :
    alist.find (alist.upsert l k v) k' = alist.find l k' := by
  induction l with
  | nil => simp [alist.find, alist.upsert, Ne.symm h]
  | cons hd tl ih =>
      obtain ⟨k0, v0⟩ := hd
      by_cases h0 : k0 = k
      · subst h0
        simp [alist.find, alist.upsert, Ne.symm h]
      · simp only [alist.upsert, if_neg h0, alist.find]
        by_cases h1 : k0 = k'
        · simp [h1]
        · simp [h1, ih]

theorem countRule_append (a b : List AnomalyRow) (r : String) :
    countRule (a ++ b) r = countRule a r + countRule b r := by
  simp [countRule, List.countP_append]

theorem countRule_nil (r : String) : countRule [] r = 0 := rfl

theorem countRule_singleton (x : AnomalyRow) (r : String) :
    countRule [x] r = if x.rule_id = r then 1 else 0 := by
  simp [countRule, List.countP_cons]

theorem countRule_eq_zero {l : List AnomalyRow} {r : String}
    (h : ∀ a ∈ l, a.rule_id ≠ r) : countRule l r = 0 := by
  simp only [countRule, List.countP_eq_zero]
  intro a ha
  simpa using h a ha

/-! ### Characterisation of the per-rule blocks -/

theorem mem_step_origin {origin_seen event player_uuid origin_id origin_type
    has_transfer tm a}
    (h : a ∈ (step_origin origin_seen event player_uuid origin_id origin_type
      has_transfer tm).1) :
    a.rule_id = "R3" ∨ a.rule_id = "R5" ∨ a.rule_id = "R8" := by
  simp only [step_origin, apply_ite Prod.fst] at h
  repeat' split at h
  all_goals simp_all [build_anomaly]

theorem mem_step_origin_of_transfer {origin_seen event player_uuid origin_id
    origin_type tm a}
    (h : a ∈ (step_origin origin_seen event player_uuid origin_id origin_type
      true tm).1) :
    a.rule_id = "R3" := by
  simp only [step_origin, apply_ite Prod.fst] at h
  repeat' split at h
  all_goals simp_all [build_anomaly]

theorem mem_step_dup_pickup {pickup_windows event player_uuid origin_type
    has_transfer tm a}
    (h : a ∈ (step_dup_pickup pickup_windows event player_uuid origin_type
      has_transfer tm).1) :
    a.rule_id = "R6" := by
  simp only [step_dup_pickup, apply_ite Prod.fst] at h
  repeat' split at h
  all_goals simp_all [build_anomaly]

theorem step_dup_pickup_of_transfer {pickup_windows event player_uuid origin_type tm} :
    (step_dup_pickup pickup_windows event player_uuid origin_type true tm).1 = [] := by
  simp [step_dup_pickup]

theorem mem_step_strict {strict_pickup_windows event player_uuid origin_type
    has_transfer tm spwm spt a}
    (h : a ∈ (step_strict strict_pickup_windows event player_uuid origin_type
      has_transfer tm spwm spt).1) :
    a.rule_id = "R10" := by
  simp only [step_strict, apply_ite Prod.fst] at h
  repeat' split at h
  all_goals simp_all [build_anomaly]

theorem step_strict_of_transfer {strict_pickup_windows event player_uuid
    origin_type tm spwm spt} :
    (step_strict strict_pickup_windows event player_uuid origin_type true tm
      spwm spt).1 = [] := by
  simp [step_strict]

theorem mem_step_audit {audit_windows event player_uuid origin_type
    has_transfer tm a}
    (h : a ∈ (step_audit audit_windows event player_uuid origin_type
      has_transfer tm).1) :
    a.rule_id = "R7" := by
  simp only [step_audit, apply_ite Prod.fst] at h
  repeat' split at h
  all_goals simp_all [build_anomaly]

theorem step_audit_of_transfer {audit_windows event player_uuid origin_type tm} :
    (step_audit audit_windows event player_uuid origin_type true tm).1 = [] := by
  simp [step_audit]

theorem mem_step_r4_r0 {key_item_windows rules event player_uuid
    key_item_window_ms tm a}
    (h : a ∈ (step_r4_r0 key_item_windows rules event player_uuid
      key_item_window_ms tm).1) :
    a.rule_id = "R4" ∨ a.rule_id = "R0" := by
  simp only [step_r4_r0, apply_ite Prod.fst] at h
  repeat' split at h
  all_goals try simp_all [build_anomaly]
  all_goals (rcases h with h | h <;> simp_all [build_anomaly])

theorem mem_snapshot_anomalies {rules event a}
    (h : a ∈ snapshot_anomalies rules event) :
    a.rule_id = "R9" ∨ a.rule_id = "R12" := by
  unfold snapshot_anomalies at h
  repeat' split at h
  all_goals simp_all [build_anomaly]

theorem process_event_eq_acquire {rules : List (String × KeyItemRule)}
    {twm kiwm spwm spt : Int} {st : Analyzer} {event : IngestEvent}
    (hvalid : ¬(str_trim event.item_id = "" ∨ event.item_id = "minecraft:air" ∨
      event.count ≤ 0))
    (hacq : event.event_type = "ACQUIRE") :
    process_event rules twm kiwm spwm spt st event =
      process_acquire rules twm kiwm spwm spt st event := by
  unfold process_event
  rw [if_neg hvalid, if_neg (by simp [hacq]), if_neg (by simp [hacq]),
    if_neg (by simp [hacq])]

theorem find_transfer_isSome_iff (cache : List TransferRecord)
    (player_uuid item_fingerprint : String) (count window_ms event_time : Int) :
    (find_transfer cache player_uuid item_fingerprint count window_ms
      event_time).isSome = true ↔
    ∃ record ∈ cache, record.player_uuid = player_uuid ∧
      record.item_fingerprint = item_fingerprint ∧ record.count = count ∧
      |event_time - record.time_ms| ≤ window_ms := by
  simp [find_transfer, List.find?_isSome, List.mem_reverse]

theorem step_r4_r0_count_r0 {key_item_windows rules event player_uuid kiwm tm}
    (htm : (tm : Option TransferRecord).isSome = true)
    (hrule : ∀ rule, alist.find rules event.item_id = some rule →
      rule.effective_threshold ≠ 0) :
    countRule (step_r4_r0 key_item_windows rules event player_uuid kiwm tm).1
      "R0" = 1 := by
  simp only [step_r4_r0, apply_ite Prod.fst]
  split
  · simp [htm, countRule, List.countP_cons, build_anomaly]
  · rename_i rule heq
    have hne := hrule rule heq
    rw [if_neg hne]
    simp only [htm, if_true, countRule_append]
    have hz : countRule (if rule.effective_threshold <
        (List.dropWhile (fun front => decide (kiwm < event.event_time - front))
          ((alist.find key_item_windows (player_uuid, event.item_id)).getD [] ++
            List.replicate (max event.count 0).toNat event.event_time)).length then
        [build_anomaly event rule.effective_risk_level "R4"
          "Rare item threshold exceeded" tm]
      else []) "R0" = 0 := by
      split <;> simp [countRule, List.countP_cons, build_anomaly]
    rw [hz]
    simp [countRule, List.countP_cons, build_anomaly]

theorem step_r4_r0_r0_risk {key_item_windows rules event player_uuid kiwm tm a}
    (h : a ∈ (step_r4_r0 key_item_windows rules event player_uuid kiwm tm).1)
    (hid : a.rule_id = "R0") : a.risk_level = "LOW" := by
  simp only [step_r4_r0, apply_ite Prod.fst] at h
  repeat' split at h
  all_goals try simp_all [build_anomaly]
  all_goals (rcases h with h | h <;> simp_all [build_anomaly])

theorem step_r4_r0_spec {key_item_windows rules event player_uuid kiwm tm rule}
    (hfind : alist.find rules event.item_id = some rule)
    (hne : rule.effective_threshold ≠ 0) :
    (step_r4_r0 key_item_windows rules event player_uuid kiwm tm).2 =
      alist.upsert key_item_windows (player_uuid, event.item_id)
        (key_window_next key_item_windows (player_uuid, event.item_id) event kiwm) ∧
    countRule (step_r4_r0 key_item_windows rules event player_uuid kiwm tm).1
        "R4" =
      (if rule.effective_threshold <
          (key_window_next key_item_windows (player_uuid, event.item_id) event
            kiwm).length then 1 else 0) ∧
    ∀ a ∈ (step_r4_r0 key_item_windows rules event player_uuid kiwm tm).1,
      a.rule_id = "R4" → a.risk_level = rule.effective_risk_level := by
  refine ⟨?_, ?_, ?_⟩
  · simp only [step_r4_r0, apply_ite Prod.snd]
    rw [hfind]
    simp [if_neg hne, key_window_next]
  · simp only [step_r4_r0, apply_ite Prod.fst]
    rw [hfind]
    simp only [if_neg hne]
    rw [show (key_window_next key_item_windows (player_uuid, event.item_id) event
      kiwm) = (((alist.find key_item_windows (player_uuid, event.item_id)).getD []) ++
        List.replicate (max event.count 0).toNat event.event_time).dropWhile
      (fun front => decide (kiwm < event.event_time - front)) from rfl]
    by_cases hlen : rule.effective_threshold <
        ((((alist.find key_item_windows (player_uuid, event.item_id)).getD []) ++
          List.replicate (max event.count 0).toNat event.event_time).dropWhile
          (fun front => decide (kiwm < event.event_time - front))).length
    · simp only [if_pos hlen, countRule_append]
      rcases htm : tm with _ | rec <;>
        simp [countRule, List.countP_cons, build_anomaly]
    · simp only [if_neg hlen, countRule_append]
      rcases htm : tm with _ | rec <;>
        simp [countRule, List.countP_cons, build_anomaly]
  · intro a ha hid
    simp only [step_r4_r0, apply_ite Prod.fst] at ha
    rw [hfind] at ha
    simp only [if_neg hne] at ha
    repeat' split at ha
    all_goals try simp_all [build_anomaly]
    all_goals (rcases ha with ha | ha <;> simp_all [build_anomaly])

theorem process_acquire_transfer_spec {rules : List (String × KeyItemRule)}
    {twm kiwm spwm spt : Int} {st : Analyzer} {event : IngestEvent}
    {rec : TransferRecord}
    (htm : find_transfer st.transfer_cache (event.player_uuid.getD "")
      (fingerprint_of event) event.count twm event.event_time = some rec)
    (hrule : ∀ rule, alist.find rules event.item_id = some rule →
      rule.effective_threshold ≠ 0) :
    countRule (process_acquire rules twm kiwm spwm spt st event).2 "R0" = 1 ∧
    (∀ a ∈ (process_acquire rules twm kiwm spwm spt st event).2,
      a.rule_id = "R0" → a.risk_level = "LOW") ∧
    ∀ rid ∈ (["R1", "R2", "R5", "R6", "R7", "R8", "R10"] : List String),
      countRule (process_acquire rules twm kiwm spwm spt st event).2 rid = 0 := by
  have h3 : ∀ rid, rid ≠ "R3" → countRule (step_origin st.origin_seen event
      (event.player_uuid.getD "") (event.origin_id.getD "")
      (event.origin_type.getD "") true (some rec)).1 rid = 0 := by
    intro rid hrid
    exact countRule_eq_zero fun a ha => by
      rw [mem_step_origin_of_transfer ha]; exact fun hh => hrid hh.symm
  have h4r : ∀ rid, rid ≠ "R4" → rid ≠ "R0" →
      countRule (step_r4_r0 st.key_item_windows rules event
        (event.player_uuid.getD "") kiwm (some rec)).1 rid = 0 := by
    intro rid h1 h2
    refine countRule_eq_zero fun a ha => ?_
    rcases mem_step_r4_r0 ha with h | h <;> rw [h]
    · exact fun hh => h1 hh.symm
    · exact fun hh => h2 hh.symm
  refine ⟨?_, ?_, ?_⟩
  · simp only [process_acquire, htm, Option.isSome_some, countRule_append,
      step_dup_pickup_of_transfer, step_strict_of_transfer,
      step_audit_of_transfer, countRule_nil]
    rw [h3 "R0" (by decide)]
    rw [@step_r4_r0_count_r0 _ _ _ _ _ (some rec) rfl hrule]
    simp [countRule]
  · intro a ha hid
    simp only [process_acquire, htm, Option.isSome_some,
      step_dup_pickup_of_transfer, step_strict_of_transfer,
      step_audit_of_transfer, List.append_nil, List.nil_append,
      List.mem_append] at ha
    rcases ha with ((ha | ha) | ha) | ha
    · split at ha <;> simp_all
    · split at ha <;> simp_all
    · rw [mem_step_origin_of_transfer ha] at hid
      exact absurd hid (by decide)
    · exact step_r4_r0_r0_risk ha hid
  · intro rid hrid
    simp only [List.mem_cons, List.not_mem_nil, or_false] at hrid
    have hne3 : rid ≠ "R3" := by
      rcases hrid with h | h | h | h | h | h | h <;> subst h <;> decide
    have hne4 : rid ≠ "R4" := by
      rcases hrid with h | h | h | h | h | h | h <;> subst h <;> decide
    have hne0 : rid ≠ "R0" := by
      rcases hrid with h | h | h | h | h | h | h <;> subst h <;> decide
    simp only [process_acquire, htm, Option.isSome_some, countRule_append,
      step_dup_pickup_of_transfer, step_strict_of_transfer,
      step_audit_of_transfer, countRule_nil]
    rw [h3 rid hne3, h4r rid hne4 hne0]
    simp [countRule]

/-! ### Claim C1 -/

/-- C1 (amended): an ACQUIRE event with a transfer match (a cache record
with the same player uuid, item fingerprint and count within the transfer
window) emits none of R1, R2, R5, R6, R7, R8 or R10, and emits exactly one
R0 at risk LOW provided no KeyItemRule with effective threshold 0 is mapped
to the item (such a rule hits the `continue` that also skips R0). -/
theorem c1_transfer_match_r0 (rules : List (String × KeyItemRule))
    (twm kiwm spwm spt : Int) (st : Analyzer) (event : IngestEvent)
    (hvalid : ¬(str_trim event.item_id = "" ∨ event.item_id = "minecraft:air" ∨
      event.count ≤ 0))
    (hacq : event.event_type = "ACQUIRE")
    (hmatch : ∃ record ∈ st.transfer_cache,
      record.player_uuid = event.player_uuid.getD "" ∧
      record.item_fingerprint = fingerprint_of event ∧
      record.count = event.count ∧
      |event.event_time - record.time_ms| ≤ twm)
    (hrule : ∀ rule, alist.find rules event.item_id = some rule →
      rule.effective_threshold ≠ 0) :
    countRule (process_event rules twm kiwm spwm spt st event).2 "R0" = 1 ∧
    (∀ a ∈ (process_event rules twm kiwm spwm spt st event).2,
      a.rule_id = "R0" → a.risk_level = "LOW") ∧
    ∀ rid ∈ (["R1", "R2", "R5", "R6", "R7", "R8", "R10"] : List String),
      countRule (process_event rules twm kiwm spwm spt st event).2 rid = 0 := by
  have hts : (find_transfer st.transfer_cache (event.player_uuid.getD "")
      (fingerprint_of event) event.count twm event.event_time).isSome = true := by
    rw [find_transfer_isSome_iff]
    exact hmatch
  obtain ⟨rec, htm⟩ := Option.isSome_iff_exists.mp hts
  rw [process_event_eq_acquire hvalid hacq]
  exact process_acquire_transfer_spec htm hrule

/-- C1 witness: the concrete matched ACQUIRE of `mod:x` with no rule for
the item emits exactly one R0. -/
theorem c1_witness :
    countRule (process_event [] 2000 600000 30000 256 fix_state
      fix_acquire).2 "R0" = 1 :=
  (c1_transfer_match_r0 [] 2000 600000 30000 256 fix_state fix_acquire
    (by decide) (by decide) (by decide)
    (fun rule h => by simp [alist.find] at h)).1

/-- C1 counterexample to the claim as stated: the same matched ACQUIRE
emits no R0 at all when the item carries a rule with threshold 0, because
the `continue` for a zero effective threshold skips the R0 emission. -/
theorem c1_counterexample :
    (∃ record ∈ fix_state.transfer_cache,
      record.player_uuid = fix_acquire.player_uuid.getD "" ∧
      record.item_fingerprint = fingerprint_of fix_acquire ∧
      record.count = fix_acquire.count ∧
      |fix_acquire.event_time - record.time_ms| ≤ 2000) ∧
    countRule (process_event [("mod:x", fix_zero_rule)] 2000 600000 30000 256
      fix_state fix_acquire).2 "R0" = 0 := by
  decide

/-! ### Claim C9 -/

/-- C9: an INVENTORY_SNAPSHOT or STORAGE_SNAPSHOT event leaves all six
detector state structures exactly as they were and can only emit R9 or R12
anomalies. -/
theorem c9_snapshot_frame (rules : List (String × KeyItemRule))
    (twm kiwm spwm spt : Int) (st : Analyzer) (event : IngestEvent)
    (hsnap : event.event_type = "INVENTORY_SNAPSHOT" ∨
      event.event_type = "STORAGE_SNAPSHOT") :
    (process_event rules twm kiwm spwm spt st event).1 = st ∧
    ∀ a ∈ (process_event rules twm kiwm spwm spt st event).2,
      a.rule_id = "R9" ∨ a.rule_id = "R12" := by
  unfold process_event
  by_cases hvalid : str_trim event.item_id = "" ∨ event.item_id = "minecraft:air" ∨
      event.count ≤ 0
  · rw [if_pos hvalid]
    exact ⟨rfl, by simp⟩
  · rw [if_neg hvalid, if_pos hsnap]
    exact ⟨rfl, fun a ha => mem_snapshot_anomalies ha⟩

/-- C9 witness: a concrete STORAGE_SNAPSHOT of `mod:gem` (which emits an
R12 over the threshold-3 rule) leaves the fresh analyzer state untouched. -/
theorem c9_witness :
    (process_event [("mod:gem", fix_gem_rule)] 2000 600000 30000 256
      Analyzer.init { sample_event with
        event_type := "STORAGE_SNAPSHOT"
        item_id := "mod:gem"
        count := 10 }).1 = Analyzer.init :=
  (c9_snapshot_frame [("mod:gem", fix_gem_rule)] 2000 600000 30000 256
    Analyzer.init _ (Or.inr rfl)).1

/-! ### Claim C10 -/

theorem step_origin_r3 {origin_seen : List (String × (String × Int))}
    {event : IngestEvent} {player_uuid origin_id origin_type : String}
    {ht : Bool} {tm : Option TransferRecord} {prev_player : String}
    {prev_time : Int}
    (hne : origin_id ≠ "")
    (hfind : alist.find origin_seen origin_id = some (prev_player, prev_time))
    (hpp : prev_player ≠ player_uuid)
    (hdelta : |event.event_time - prev_time| < 10000) :
    (step_origin origin_seen event player_uuid origin_id origin_type ht tm).1 =
      [build_anomaly event "HIGH" "R3" "Duplicate origin_id across players" tm] := by
  simp only [step_origin, apply_ite Prod.fst, if_neg hne, hfind]
  simp [hpp, hdelta]

/-- C10: a valid ACQUIRE whose non-empty origin id was last seen under a
different player strictly less than 10000 ms away always emits exactly one
R3; the hypotheses place no constraint on the transfer cache, so the R3
check is independent of the transfer match. -/
theorem c10_r3_independent_of_transfer (rules : List (String × KeyItemRule))
    (twm kiwm spwm spt : Int) (st : Analyzer) (event : IngestEvent)
    (prev_player : String) (prev_time : Int)
    (hvalid : ¬(str_trim event.item_id = "" ∨ event.item_id = "minecraft:air" ∨
      event.count ≤ 0))
    (hacq : event.event_type = "ACQUIRE")
    (hoid : event.origin_id.getD "" ≠ "")
    (hfind : alist.find st.origin_seen (event.origin_id.getD "") =
      some (prev_player, prev_time))
    (hpp : prev_player ≠ event.player_uuid.getD "")
    (hdelta : |event.event_time - prev_time| < 10000) :
    countRule (process_event rules twm kiwm spwm spt st event).2 "R3" = 1 := by
  rw [process_event_eq_acquire hvalid hacq]
  simp only [process_acquire, countRule_append]
  rw [step_origin_r3 hoid hfind hpp hdelta]
  have hz6 : countRule (step_dup_pickup st.pickup_windows event
      (event.player_uuid.getD "") (event.origin_type.getD "")
      (find_transfer st.transfer_cache (event.player_uuid.getD "")
        (fingerprint_of event) event.count twm event.event_time).isSome
      (find_transfer st.transfer_cache (event.player_uuid.getD "")
        (fingerprint_of event) event.count twm event.event_time)).1 "R3" = 0 :=
    countRule_eq_zero fun a ha => by rw [mem_step_dup_pickup ha]; decide
  have hz10 : countRule (step_strict st.strict_pickup_windows event
      (event.player_uuid.getD "") (event.origin_type.getD "")
      (find_transfer st.transfer_cache (event.player_uuid.getD "")
        (fingerprint_of event) event.count twm event.event_time).isSome
      (find_transfer st.transfer_cache (event.player_uuid.getD "")
        (fingerprint_of event) event.count twm event.event_time) spwm spt).1
      "R3" = 0 :=
    countRule_eq_zero fun a ha => by rw [mem_step_strict ha]; decide
  have hz7 : countRule (step_audit st.audit_windows event
      (event.player_uuid.getD "") (event.origin_type.getD "")
      (find_transfer st.transfer_cache (event.player_uuid.getD "")
        (fingerprint_of event) event.count twm event.event_time).isSome
      (find_transfer st.transfer_cache (event.player_uuid.getD "")
        (fingerprint_of event) event.count twm event.event_time)).1 "R3" = 0 :=
    countRule_eq_zero fun a ha => by rw [mem_step_audit ha]; decide
  have hz4 : countRule (step_r4_r0 st.key_item_windows rules event
      (event.player_uuid.getD "") kiwm
      (find_transfer st.transfer_cache (event.player_uuid.getD "")
        (fingerprint_of event) event.count twm event.event_time)).1 "R3" = 0 :=
    countRule_eq_zero fun a ha => by
      rcases mem_step_r4_r0 ha with h | h <;> rw [h] <;> decide
  rw [hz6, hz10, hz7, hz4]
  have hz1 : ∀ l : List AnomalyRow, (∀ a ∈ l, a.rule_id ≠ "R3") →
      countRule l "R3" = 0 := fun l h => countRule_eq_zero h
  have ha1 : countRule (if (event.origin_id.getD "") = "" ∧
      (find_transfer st.transfer_cache (event.player_uuid.getD "")
        (fingerprint_of event) event.count twm event.event_time).isSome = false
      then [build_anomaly event "HIGH" "R1"
        "ACQUIRE missing origin and no transfer match"
        (find_transfer st.transfer_cache (event.player_uuid.getD "")
          (fingerprint_of event) event.count twm event.event_time)]
      else []) "R3" = 0 := by
    split <;> simp [countRule, List.countP_cons, build_anomaly]
  have ha2 : countRule (if (event.origin_type.getD "") ≠ "" ∧
      origin_whitelist.contains (event.origin_type.getD "") = false ∧
      (find_transfer st.transfer_cache (event.player_uuid.getD "")
        (fingerprint_of event) event.count twm event.event_time).isSome = false
      then [build_anomaly event "HIGH" "R2" "ACQUIRE origin_type not in whitelist"
        (find_transfer st.transfer_cache (event.player_uuid.getD "")
          (fingerprint_of event) event.count twm event.event_time)]
      else []) "R3" = 0 := by
    split <;> simp [countRule, List.countP_cons, build_anomaly]
  rw [ha1, ha2]
  simp [countRule, List.countP_cons, build_anomaly]

/-- C10 witness: the R3 anomaly fires at a concrete input whose transfer
cache holds a matching record, so the transfer match does not suppress it. -/
theorem c10_witness :
    countRule (process_event [] 2000 600000 30000 256
      { fix_state with origin_seen := [("o1", ("B", 400))] }
      { fix_acquire with origin_id := some "o1" }).2 "R3" = 1 :=
  c10_r3_independent_of_transfer [] 2000 600000 30000 256
    { fix_state with origin_seen := [("o1", ("B", 400))] }
    { fix_acquire with origin_id := some "o1" } "B" 400
    (by decide) (by decide) (by decide) (by decide) (by decide) (by decide)

/-! ### Claim C4 -/

theorem step_r4_r0_zero {key_item_windows rules event player_uuid kiwm tm r}
    (hfind : alist.find rules event.item_id = some r)
    (hzero : r.effective_threshold = 0) :
    (step_r4_r0 key_item_windows rules event player_uuid kiwm tm).1 = [] := by
  simp only [step_r4_r0, apply_ite Prod.fst]
  rw [hfind]
  simp [hzero]

theorem process_event_no_r4 {rules : List (String × KeyItemRule)}
    {twm kiwm spwm spt : Int} {st : Analyzer} {event : IngestEvent}
    {r : KeyItemRule}
    (hfind : alist.find rules event.item_id = some r)
    (hzero : r.effective_threshold = 0)
    (hacq : event.event_type = "ACQUIRE") :
    ∀ a ∈ (process_event rules twm kiwm spwm spt st event).2, a.rule_id ≠ "R4" := by
  intro a ha
  unfold process_event at ha
  by_cases hvalid : str_trim event.item_id = "" ∨ event.item_id = "minecraft:air" ∨
      event.count ≤ 0
  · rw [if_pos hvalid] at ha
    simp at ha
  · rw [if_neg hvalid, if_neg (by simp [hacq]), if_neg (by simp [hacq]),
      if_neg (by simp [hacq])] at ha
    simp only [process_acquire, List.mem_append] at ha
    rcases ha with ((((((ha | ha) | ha) | ha) | ha) | ha) | ha)
    · split at ha <;> simp_all [build_anomaly]
    · split at ha <;> simp_all [build_anomaly]
    · rcases mem_step_origin ha with h | h | h <;> simp [h]
    · rw [mem_step_dup_pickup ha]; decide
    · rw [mem_step_strict ha]; decide
    · rw [mem_step_audit ha]; decide
    · rw [step_r4_r0_zero hfind hzero] at ha
      simp at ha

theorem process_list_no_r4 {rules : List (String × KeyItemRule)}
    {twm kiwm spwm spt : Int} {r : KeyItemRule}
    (hfind : alist.find rules r.item_id = some r)
    (hzero : r.effective_threshold = 0) :
    ∀ (events : List IngestEvent) (st : Analyzer),
      (∀ e ∈ events, e.event_type = "ACQUIRE" ∧ e.item_id = r.item_id) →
      ∀ a ∈ (process_list rules twm kiwm spwm spt st events).2, a.rule_id ≠ "R4" := by
  intro events
  induction events with
  | nil => intro st _ a ha; simp [process_list] at ha
  | cons e rest ih =>
      intro st hev a ha
      simp only [process_list, List.mem_append] at ha
      obtain ⟨hacq, hitem⟩ := hev e (List.mem_cons_self e rest)
      rcases ha with ha | ha
      · exact process_event_no_r4 (hitem ▸ hfind) hzero hacq a ha
      · exact ih _ (fun x hx => hev x (List.mem_cons_of_mem e hx)) a ha

/-- C4: a KeyItemRule with `threshold == 0` (effective threshold 0, i.e.
disabled) never lets `analyze_batch` emit an R4 for its item, whatever the
ACQUIRE stream or the prior analyzer state. -/
theorem c4_zero_threshold_no_r4 (rules : List (String × KeyItemRule))
    (twm kiwm spwm spt now : Int) (st : Analyzer) (events : List IngestEvent)
    (r : KeyItemRule)
    (hfind : alist.find rules r.item_id = some r)
    (hzero : r.threshold = some 0)
    (hev : ∀ e ∈ events, e.event_type = "ACQUIRE" ∧ e.item_id = r.item_id) :
    ∀ a ∈ (analyze_batch st events rules twm kiwm spwm spt now).2,
      a.rule_id ≠ "R4" := by
  have hzero' : r.effective_threshold = 0 := by
    simp [KeyItemRule.effective_threshold, hzero]
  exact process_list_no_r4 hfind hzero' events _ hev

/-- C4 witness: four matched-rule ACQUIRE events of `mod:x` under the
disabled rule produce no R4. -/
theorem c4_witness :
    countRule (analyze_batch Analyzer.init
      [{ fix_acquire with event_time := 0 }, { fix_acquire with event_time := 100 },
        { fix_acquire with event_time := 200 }, { fix_acquire with event_time := 300 }]
      [("mod:x", fix_zero_rule)] 2000 600000 30000 256 1000).2 "R4" = 0 :=
  countRule_eq_zero
    (c4_zero_threshold_no_r4 [("mod:x", fix_zero_rule)] 2000 600000 30000 256
      1000 Analyzer.init _ fix_zero_rule (by decide) rfl
      (by intro e he; fin_cases he <;> exact ⟨rfl, rfl⟩))

/-! ### Claim C2 -/

theorem process_event_key_item_spec {rules : List (String × KeyItemRule)}
    {twm kiwm spwm spt : Int} {st : Analyzer} {event : IngestEvent}
    {r : KeyItemRule}
    (hvalid : ¬(str_trim event.item_id = "" ∨ event.item_id = "minecraft:air" ∨
      event.count ≤ 0))
    (hacq : event.event_type = "ACQUIRE")
    (hfind : alist.find rules event.item_id = some r)
    (hne : r.effective_threshold ≠ 0) :
    (process_event rules twm kiwm spwm spt st event).1.key_item_windows =
      alist.upsert st.key_item_windows (event.player_uuid.getD "", event.item_id)
        (key_window_next st.key_item_windows
          (event.player_uuid.getD "", event.item_id) event kiwm) ∧
    countRule (process_event rules twm kiwm spwm spt st event).2 "R4" =
      (if r.effective_threshold <
        (key_window_next st.key_item_windows
          (event.player_uuid.getD "", event.item_id) event kiwm).length
      then 1 else 0) ∧
    ∀ a ∈ (process_event rules twm kiwm spwm spt st event).2,
      a.rule_id = "R4" → a.risk_level = r.effective_risk_level := by
  rw [process_event_eq_acquire hvalid hacq]
  obtain ⟨hspec1, hspec2, hspec3⟩ := @step_r4_r0_spec st.key_item_windows
    rules event (event.player_uuid.getD "") kiwm
    (find_transfer st.transfer_cache (event.player_uuid.getD "")
      (fingerprint_of event) event.count twm event.event_time) r hfind hne
  refine ⟨?_, ?_, ?_⟩
  · simpa only [process_acquire] using hspec1
  · simp only [process_acquire, countRule_append]
    rw [hspec2]
    have hz3 : countRule (step_origin st.origin_seen event
        (event.player_uuid.getD "") (event.origin_id.getD "")
        (event.origin_type.getD "")
        (find_transfer st.transfer_cache (event.player_uuid.getD "")
          (fingerprint_of event) event.count twm event.event_time).isSome
        (find_transfer st.transfer_cache (event.player_uuid.getD "")
          (fingerprint_of event) event.count twm event.event_time)).1 "R4" = 0 :=
      countRule_eq_zero fun a ha => by
        rcases mem_step_origin ha with h | h | h <;> rw [h] <;> decide
    have hz6 : countRule (step_dup_pickup st.pickup_windows event
        (event.player_uuid.getD "") (event.origin_type.getD "")
        (find_transfer st.transfer_cache (event.player_uuid.getD "")
          (fingerprint_of event) event.count twm event.event_time).isSome
        (find_transfer st.transfer_cache (event.player_uuid.getD "")
          (fingerprint_of event) event.count twm event.event_time)).1 "R4" = 0 :=
      countRule_eq_zero fun a ha => by rw [mem_step_dup_pickup ha]; decide
    have hz10 : countRule (step_strict st.strict_pickup_windows event
        (event.player_uuid.getD "") (event.origin_type.getD "")
        (find_transfer st.transfer_cache (event.player_uuid.getD "")
          (fingerprint_of event) event.count twm event.event_time).isSome
        (find_transfer st.transfer_cache (event.player_uuid.getD "")
          (fingerprint_of event) event.count twm event.event_time) spwm spt).1
        "R4" = 0 :=
      countRule_eq_zero fun a ha => by rw [mem_step_strict ha]; decide
    have hz7 : countRule (step_audit st.audit_windows event
        (event.player_uuid.getD "") (event.origin_type.getD "")
        (find_transfer st.transfer_cache (event.player_uuid.getD "")
          (fingerprint_of event) event.count twm event.event_time).isSome
        (find_transfer st.transfer_cache (event.player_uuid.getD "")
          (fingerprint_of event) event.count twm event.event_time)).1 "R4" = 0 :=
      countRule_eq_zero fun a ha => by rw [mem_step_audit ha]; decide
    rw [hz3, hz6, hz10, hz7]
    have ha1 : countRule (if (event.origin_id.getD "") = "" ∧
        (find_transfer st.transfer_cache (event.player_uuid.getD "")
          (fingerprint_of event) event.count twm event.event_time).isSome = false
        then [build_anomaly event "HIGH" "R1"
          "ACQUIRE missing origin and no transfer match"
          (find_transfer st.transfer_cache (event.player_uuid.getD "")
            (fingerprint_of event) event.count twm event.event_time)]
        else []) "R4" = 0 := by
      split <;> simp [countRule, List.countP_cons, build_anomaly]
    have ha2 : countRule (if (event.origin_type.getD "") ≠ "" ∧
        origin_whitelist.contains (event.origin_type.getD "") = false ∧
        (find_transfer st.transfer_cache (event.player_uuid.getD "")
          (fingerprint_of event) event.count twm event.event_time).isSome = false
        then [build_anomaly event "HIGH" "R2"
          "ACQUIRE origin_type not in whitelist"
          (find_transfer st.transfer_cache (event.player_uuid.getD "")
            (fingerprint_of event) event.count twm event.event_time)]
        else []) "R4" = 0 := by
      split <;> simp [countRule, List.countP_cons, build_anomaly]
    rw [ha1, ha2]
    simp
  · intro a ha hid
    simp only [process_acquire, List.mem_append] at ha
    rcases ha with ((((((ha | ha) | ha) | ha) | ha) | ha) | ha)
    · exact absurd hid (by split at ha <;> simp_all [build_anomaly])
    · exact absurd hid (by split at ha <;> simp_all [build_anomaly])
    · exact absurd hid (by rcases mem_step_origin ha with h | h | h <;> simp [h])
    · exact absurd hid (by rw [mem_step_dup_pickup ha]; decide)
    · exact absurd hid (by rw [mem_step_strict ha]; decide)
    · exact absurd hid (by rw [mem_step_audit ha]; decide)
    · exact hspec3 a ha hid

theorem process_trace_key_item {rules : List (String × KeyItemRule)}
    {twm kiwm spwm spt : Int} {r : KeyItemRule} {p : String}
    (hfind : alist.find rules r.item_id = some r)
    (hne : r.effective_threshold ≠ 0)
    (hitem : ¬(str_trim r.item_id = "" ∨ r.item_id = "minecraft:air")) :
    ∀ (events : List IngestEvent) (st : Analyzer),
      (∀ e ∈ events, e.event_type = "ACQUIRE" ∧ e.item_id = r.item_id ∧
        e.player_uuid.getD "" = p ∧ 0 < e.count) →
      ∀ i (hi : i < (process_trace rules twm kiwm spwm spt st events).length),
        (countRule ((process_trace rules twm kiwm spwm spt st events).get
            ⟨i, hi⟩).2 "R4" =
          (if r.effective_threshold <
            ((alist.find ((process_trace rules twm kiwm spwm spt st events).get
                ⟨i, hi⟩).1.key_item_windows (p, r.item_id)).getD []).length
          then 1 else 0)) ∧
        ∀ a ∈ ((process_trace rules twm kiwm spwm spt st events).get ⟨i, hi⟩).2,
          a.rule_id = "R4" → a.risk_level = r.effective_risk_level := by
  intro events
  induction events with
  | nil => intro st _ i hi; simp [process_trace] at hi
  | cons e rest ih =>
      intro st hev i hi
      obtain ⟨hacq, hitem_e, hp, hcount⟩ := hev e (List.mem_cons_self e rest)
      have hvalid : ¬(str_trim e.item_id = "" ∨ e.item_id = "minecraft:air" ∨
          e.count ≤ 0) := by
        rw [hitem_e]
        push_neg
        push_neg at hitem
        exact ⟨hitem.1, hitem.2, by omega⟩
      obtain ⟨hw, hc, hr⟩ := @process_event_key_item_spec rules twm kiwm spwm
        spt st e r hvalid hacq (hitem_e ▸ hfind) hne
      match i with
      | 0 =>
          show (countRule (process_event rules twm kiwm spwm spt st e).2 "R4" =
              (if r.effective_threshold <
                ((alist.find (process_event rules twm kiwm spwm spt
                  st e).1.key_item_windows (p, r.item_id)).getD []).length
              then 1 else 0)) ∧
            ∀ a ∈ (process_event rules twm kiwm spwm spt st e).2,
              a.rule_id = "R4" → a.risk_level = r.effective_risk_level
          refine ⟨?_, hr⟩
          rw [hc, hw]
          rw [show ((p : String), r.item_id) =
            (e.player_uuid.getD "", e.item_id) from by rw [hp, hitem_e]]
          rw [alist.find_upsert_self]
          rfl
      | Nat.succ j =>
          have hi' : j < (process_trace rules twm kiwm spwm spt
              (process_event rules twm kiwm spwm spt st e).1 rest).length := by
            simpa [process_trace] using hi
          exact ih (process_event rules twm kiwm spwm spt st e).1
            (fun x hx => hev x (List.mem_cons_of_mem e hx)) j hi'

theorem process_list_eq_trace_join (rules : List (String × KeyItemRule))
    (twm kiwm spwm spt : Int) :
    ∀ (events : List IngestEvent) (st : Analyzer),
      (process_list rules twm kiwm spwm spt st events).2 =
        ((process_trace rules twm kiwm spwm spt st events).map (·.2)).flatten := by
  intro events
  induction events with
  | nil => intro st; simp [process_list, process_trace]
  | cons e rest ih =>
      intro st
      simp [process_list, process_trace, ih]

theorem cleanup_init (now twm kiwm spwm : Int) :
    cleanup Analyzer.init now twm kiwm spwm = Analyzer.init := by
  simp [cleanup, Analyzer.init]

/-- C2: for a rule with positive threshold `t` and a stream of valid
ACQUIRE events of its item by one player, run from the fresh analyzer, the
batch output is the in-order concatenation of the per-event outputs, an R4
is emitted at an event exactly when the (player, item) key-item window
remaining after that event holds more than `t` timestamps — so the first R4
falls exactly on the first event whose window exceeds the threshold — and
every R4 carries the rule's risk level. -/
theorem c2_first_r4_at_threshold (rules : List (String × KeyItemRule))
    (twm kiwm spwm spt now : Int) (r : KeyItemRule) (p : String) (t : Nat)
    (events : List IngestEvent)
    (hfind : alist.find rules r.item_id = some r)
    (hthr : r.threshold = some t)
    (htpos : 0 < t)
    (hitem : ¬(str_trim r.item_id = "" ∨ r.item_id = "minecraft:air"))
    (hev : ∀ e ∈ events, e.event_type = "ACQUIRE" ∧ e.item_id = r.item_id ∧
      e.player_uuid.getD "" = p ∧ 0 < e.count) :
    (analyze_batch Analyzer.init events rules twm kiwm spwm spt now).2 =
      ((process_trace rules twm kiwm spwm spt Analyzer.init events).map
        (·.2)).flatten ∧
    (∀ i (hi : i < (process_trace rules twm kiwm spwm spt Analyzer.init
        events).length),
      countRule ((process_trace rules twm kiwm spwm spt Analyzer.init
          events).get ⟨i, hi⟩).2 "R4" =
        (if t < ((alist.find ((process_trace rules twm kiwm spwm spt
            Analyzer.init events).get ⟨i, hi⟩).1.key_item_windows
            (p, r.item_id)).getD []).length
        then 1 else 0)) ∧
    ∀ a ∈ (analyze_batch Analyzer.init events rules twm kiwm spwm spt now).2,
      a.rule_id = "R4" → a.risk_level = r.effective_risk_level := by
  have hne : r.effective_threshold ≠ 0 := by
    simp [KeyItemRule.effective_threshold, hthr]
    omega
  have hteq : r.effective_threshold = t := by
    simp [KeyItemRule.effective_threshold, hthr]
  have hjoin : (analyze_batch Analyzer.init events rules twm kiwm spwm spt
      now).2 = ((process_trace rules twm kiwm spwm spt Analyzer.init
      events).map (·.2)).flatten := by
    unfold analyze_batch
    rw [cleanup_init, process_list_eq_trace_join]
  refine ⟨hjoin, ?_, ?_⟩
  · intro i hi
    have h := (process_trace_key_item hfind hne hitem events Analyzer.init hev
      i hi).1
    rw [hteq] at h
    exact h
  · intro a ha hid
    rw [hjoin] at ha
    simp only [List.mem_flatten, List.mem_map] at ha
    obtain ⟨l, ⟨pair, hpair, rfl⟩, hal⟩ := ha
    obtain ⟨⟨i, hi⟩, hg⟩ := List.mem_iff_get.mp hpair
    rw [← hg] at hal
    exact (process_trace_key_item hfind hne hitem events Analyzer.init hev
      i hi).2 a hal hid

/-- C2 witness: with rule threshold 3 on `mod:gem` and four single-count
acquires, the R4 count at the fourth trace entry is 1 (window length 4
exceeds 3). -/
theorem c2_witness :
    countRule ((process_trace [("mod:gem", fix_gem_rule)] 2000 10000 30000 256
      Analyzer.init [fix_gem_event 0, fix_gem_event 100, fix_gem_event 200,
        fix_gem_event 300]).get ⟨3, by decide⟩).2 "R4" = 1 := by
  have h := (c2_first_r4_at_threshold [("mod:gem", fix_gem_rule)] 2000 10000
    30000 256 5000 fix_gem_rule "A" 3
    [fix_gem_event 0, fix_gem_event 100, fix_gem_event 200, fix_gem_event 300]
    (by decide) rfl (by decide) (by decide)
    (by intro e he; fin_cases he <;> exact ⟨rfl, rfl, rfl, by decide⟩)).2.1
    3 (by decide)
  rw [h]
  decide

/-! ### Claim C3 -/

theorem dropWhile_sorted_bound {α : Type} (key : α → Int) (now w : Int)
    (l : List α) (hsort : l.Pairwise fun x y => key x ≤ key y) :
    ∀ x ∈ l.dropWhile (fun r => decide (w < now - key r)), now - key x ≤ w := by
  induction l with
  | nil => simp
  | cons hd tl ih =>
      intro x hx
      obtain ⟨hhd, htl⟩ := List.pairwise_cons.mp hsort
      by_cases hh : w < now - key hd
      · rw [List.dropWhile_cons_of_pos (by simpa using hh)] at hx
        exact ih htl x hx
      · rw [List.dropWhile_cons_of_neg (by simpa using hh)] at hx
        rcases List.mem_cons.mp hx with rfl | hx
        · omega
        · have := hhd x hx
          omega

/-- C3 counterexample to the claim as stated: `cleanup` never evicts
`origin_seen`, so a record far older than every configured window survives
the pass untouched. -/
theorem c3_counterexample :
    (cleanup { Analyzer.init with origin_seen := [("o1", ("A", 0))] }
      1000000000 60000 60000 60000).origin_seen = [("o1", ("A", 0))] ∧
    (60000 : Int) < 1000000000 - 0 := by
  decide

/-- C3 (amended): `analyze_batch` first passes the state through `cleanup`,
which (for time-ordered deques, which front-eviction fully clears of old
records): leaves `origin_seen` completely untouched; drops from
`transfer_cache`, `key_item_windows`, `pickup_windows`, `audit_windows`
and — only when `strict_pickup_window_ms > 0` — `strict_pickup_windows`
every record older than the respective window; and removes emptied windows
from `pickup_windows`, `audit_windows` and `strict_pickup_windows` (but not
from `key_item_windows`). -/
theorem c3_cleanup_characterisation (st : Analyzer)
    (rules : List (String × KeyItemRule)) (events : List IngestEvent)
    (now twm kiwm spwm spt : Int)
    (hsc : st.transfer_cache.Pairwise fun x y => x.time_ms ≤ y.time_ms)
    (hski : ∀ kv ∈ st.key_item_windows, kv.2.Pairwise fun x y => x ≤ y)
    (hsp : ∀ kv ∈ st.pickup_windows, kv.2.Pairwise fun x y => x ≤ y)
    (hsa : ∀ kv ∈ st.audit_windows, kv.2.Pairwise fun x y => x.time_ms ≤ y.time_ms)
    (hss : ∀ kv ∈ st.strict_pickup_windows,
      kv.2.Pairwise fun x y => x.time_ms ≤ y.time_ms) :
    (analyze_batch st events rules twm kiwm spwm spt now =
      process_list rules twm kiwm spwm spt (cleanup st now twm kiwm spwm)
        events) ∧
    (cleanup st now twm kiwm spwm).origin_seen = st.origin_seen ∧
    (∀ rec ∈ (cleanup st now twm kiwm spwm).transfer_cache,
      now - rec.time_ms ≤ twm) ∧
    (∀ kv ∈ (cleanup st now twm kiwm spwm).key_item_windows,
      ∀ ts ∈ kv.2, now - ts ≤ kiwm) ∧
    (∀ kv ∈ (cleanup st now twm kiwm spwm).pickup_windows,
      kv.2 ≠ [] ∧ ∀ ts ∈ kv.2, now - ts ≤ 15000) ∧
    (∀ kv ∈ (cleanup st now twm kiwm spwm).audit_windows,
      kv.2 ≠ [] ∧ ∀ rec ∈ kv.2, now - rec.time_ms ≤ 30000) ∧
    (0 < spwm → ∀ kv ∈ (cleanup st now twm kiwm spwm).strict_pickup_windows,
      kv.2 ≠ [] ∧ ∀ rec ∈ kv.2, now - rec.time_ms ≤ spwm) := by
  refine ⟨rfl, rfl, ?_, ?_, ?_, ?_, ?_⟩
  · intro rec hrec
    simp only [cleanup] at hrec
    exact dropWhile_sorted_bound (fun r => r.time_ms) now twm
      st.transfer_cache hsc rec hrec
  · intro kv hkv ts hts
    simp only [cleanup, List.mem_map] at hkv
    obtain ⟨kv0, hkv0, rfl⟩ := hkv
    exact dropWhile_sorted_bound (fun r => r) now kiwm kv0.2 (hski kv0 hkv0)
      ts hts
  · intro kv hkv
    simp only [cleanup, List.mem_filter, List.mem_map] at hkv
    obtain ⟨⟨kv0, hkv0, rfl⟩, hne⟩ := hkv
    refine ⟨by simpa using hne, ?_⟩
    intro ts hts
    exact dropWhile_sorted_bound (fun r => r) now 15000 kv0.2 (hsp kv0 hkv0)
      ts hts
  · intro kv hkv
    simp only [cleanup, List.mem_filter, List.mem_map] at hkv
    obtain ⟨⟨kv0, hkv0, rfl⟩, hne⟩ := hkv
    refine ⟨by simpa using hne, ?_⟩
    intro rec hrec
    exact dropWhile_sorted_bound (fun r => r.time_ms) now 30000 kv0.2
      (hsa kv0 hkv0) rec hrec
  · intro hpos kv hkv
    simp only [cleanup, if_pos hpos, List.mem_filter, List.mem_map] at hkv
    obtain ⟨⟨kv0, hkv0, rfl⟩, hne⟩ := hkv
    refine ⟨by simpa using hne, ?_⟩
    intro rec hrec
    exact dropWhile_sorted_bound (fun r => r.time_ms) now spwm kv0.2
      (hss kv0 hkv0) rec hrec

/-- C3 witness: on a concrete state with one stale and one fresh transfer
record, cleanup leaves `origin_seen` unchanged and the fresh record that
survives in the cache is within the transfer window. -/
theorem c3_witness :
    (cleanup fix_c3_state 100000 2000 600000 30000).origin_seen =
      fix_c3_state.origin_seen ∧
    (100000 : Int) -
      ({ sample_transfer with time_ms := 99000 } : TransferRecord).time_ms ≤
      2000 := by
  have h := c3_cleanup_characterisation fix_c3_state [] [] 100000 2000 600000
    30000 256 (by decide) (by simp [fix_c3_state, Analyzer.init])
    (by simp [fix_c3_state, Analyzer.init])
    (by simp [fix_c3_state, Analyzer.init])
    (by simp [fix_c3_state, Analyzer.init])
  exact ⟨h.2.1, h.2.2.1 { sample_transfer with time_ms := 99000 } (by decide)⟩

/-! ### Claim C5 -/

/-- C5: a successful `put_mod_config` returns and caches an envelope whose
revision is the previous envelope's revision plus one (previous resolved
from the cache, then the disk), or 1 when neither holds one; hence two
successive successful puts for the same resolved server id return strictly
increasing revisions. -/
theorem c5_revision_monotone (checksum : Json → String) (now1 now2 : Int)
    (st st1 st2 : ModState) (q1 q2 : Option String)
    (p1 p2 : ModConfigPutRequest) (e1 e2 : ModConfigEnvelope)
    (h1 : put_mod_config checksum now1 st q1 p1 = Except.ok (st1, e1))
    (h2 : put_mod_config checksum now2 st1 q2 p2 = Except.ok (st2, e2))
    (hsame : resolve_server_id q1 p1.server_id =
      resolve_server_id q2 p2.server_id) :
    (e1.revision =
      match alist.find st.cache (resolve_server_id q1 p1.server_id) with
      | some prev => prev.revision + 1
      | none =>
          match mod_disk_load st (resolve_server_id q1 p1.server_id) with
          | some prev => prev.revision + 1
          | none => 1) ∧
    e2.revision = e1.revision + 1 ∧ e1.revision < e2.revision := by
  unfold put_mod_config at h1 h2
  by_cases hn1 : p1.config.isNull
  · rw [if_pos hn1] at h1
    exact absurd h1 (by simp)
  · rw [if_neg hn1] at h1
    by_cases hn2 : p2.config.isNull
    · rw [if_pos hn2] at h2
      exact absurd h2 (by simp)
    · rw [if_neg hn2] at h2
      simp only [Except.ok.injEq, Prod.mk.injEq] at h1 h2
      obtain ⟨hst1, he1⟩ := h1
      obtain ⟨hst2, he2⟩ := h2
      subst hst1
      subst he1
      subst he2
      constructor
      · simp only [ModConfigEnvelope.revision]
        rcases alist.find st.cache (resolve_server_id q1 p1.server_id) with _ | prev
        · rfl
        · rfl
      · constructor
        · simp only [ModConfigEnvelope.revision]
          rw [← hsame]
          rw [alist.find_upsert_self]
        · simp only [ModConfigEnvelope.revision]
          rw [← hsame, alist.find_upsert_self]
          simp

/-- C5 witness: two concrete puts for server `s1` starting from the empty
state return revisions 1 and 2. -/
theorem c5_witness :
    ((put_mod_config (fun _ => "") 10 ⟨[], []⟩ none
        ⟨some "s1", none, Json.obj []⟩).toOption.map
      (fun out => out.2.revision) = some 1) ∧
    ∀ st1 e1 st2 e2,
      put_mod_config (fun _ => "") 10 ⟨[], []⟩ none
        ⟨some "s1", none, Json.obj []⟩ = Except.ok (st1, e1) →
      put_mod_config (fun _ => "") 20 st1 none
        ⟨some "s1", none, Json.obj [("k", Json.num 2)]⟩ = Except.ok (st2, e2) →
      e2.revision = e1.revision + 1 ∧ e1.revision < e2.revision := by
  constructor
  · decide
  · intro st1 e1 st2 e2 h1 h2
    exact (c5_revision_monotone (fun _ => "") 10 20 ⟨[], []⟩ st1 st2 none none
      ⟨some "s1", none, Json.obj []⟩ ⟨some "s1", none, Json.obj [("k", Json.num 2)]⟩
      e1 e2 h1 h2 rfl).2

/-! ### Claim C6 -/

theorem btree_insert_mem (s : List String) (x y : String) :
    y ∈ btree_insert s x ↔ y = x ∨ y ∈ s := by
  induction s with
  | nil => simp [btree_insert]
  | cons hd tl ih =>
      by_cases h1 : x < hd
      · rw [show btree_insert (hd :: tl) x = x :: hd :: tl from by
          simp [btree_insert, h1]]
        simp [List.mem_cons]
      · by_cases h2 : x = hd
        · subst h2
          rw [show btree_insert (x :: tl) x = x :: tl from by
            simp [btree_insert, h1]]
          constructor
          · intro h
            exact Or.inr h
          · rintro (rfl | h)
            · exact List.mem_cons_self _ _
            · exact h
        · rw [show btree_insert (hd :: tl) x = hd :: btree_insert tl x from by
            simp [btree_insert, h1, h2]]
          rw [List.mem_cons, ih, List.mem_cons]
          tauto

theorem btree_insert_sorted (s : List String) (x : String)
    (hs : s.Pairwise (· < ·)) : (btree_insert s x).Pairwise (· < ·) := by
  induction s with
  | nil => simp [btree_insert]
  | cons hd tl ih =>
      obtain ⟨hhd, htl⟩ := List.pairwise_cons.mp hs
      by_cases h1 : x < hd
      · rw [show btree_insert (hd :: tl) x = x :: hd :: tl by
          simp [btree_insert, h1]]
        exact List.pairwise_cons.mpr ⟨fun y hy => by
          rcases List.mem_cons.mp hy with rfl | hy
          · exact h1
          · exact lt_trans h1 (hhd y hy), hs⟩
      · by_cases h2 : x = hd
        · rw [show btree_insert (hd :: tl) x = hd :: tl by
            simp [btree_insert, h1, h2]]
          exact hs
        · rw [show btree_insert (hd :: tl) x = hd :: btree_insert tl x by
            simp [btree_insert, h1, h2]]
          refine List.pairwise_cons.mpr ⟨fun y hy => ?_, ih htl⟩
          rcases (btree_insert_mem tl x y).mp hy with rfl | hy
          · exact lt_of_le_of_ne (not_lt.mp h1) (Ne.symm h2)
          · exact hhd y hy

theorem btree_fold_sorted (xs : List String) :
    ∀ acc, acc.Pairwise (· < ·) → (xs.foldl btree_insert acc).Pairwise (· < ·) := by
  induction xs with
  | nil => intro acc hacc; simpa using hacc
  | cons hd tl ih =>
      intro acc hacc
      exact ih _ (btree_insert_sorted acc hd hacc)

theorem btree_fold_mem (xs : List String) :
    ∀ acc y, y ∈ xs.foldl btree_insert acc ↔ y ∈ acc ∨ y ∈ xs := by
  induction xs with
  | nil => intro acc y; simp
  | cons hd tl ih =>
      intro acc y
      rw [List.foldl_cons, ih (btree_insert acc hd) y, btree_insert_mem]
      simp only [List.mem_cons]
      tauto

theorem btree_of_sorted (xs : List String) : (btree_of xs).Pairwise (· < ·) :=
  btree_fold_sorted xs [] (List.Pairwise.nil)

theorem btree_of_mem (xs : List String) (y : String) :
    y ∈ btree_of xs ↔ y ∈ xs := by
  rw [btree_of, btree_fold_mem]
  simp

/-- C6: `spawn_alerts` delivers only anomalies whose rule id is R4, R10 or
R12; when the filter empties the batch no attempt is made and the delivery
ring is untouched; otherwise exactly one record is written, whose
`rule_ids` are the sorted, deduplicated rule ids of the filtered alerts and
whose `alert_count` is their number. -/
theorem c6_alert_filter_and_record (sendOutcome : Nat → Option String)
    (now : Int) (config : RuntimeConfig)
    (deliveries : List AlertDeliveryRecord) (history_limit : Nat)
    (anomalies : List AnomalyRow) :
    (∀ a ∈ anomalies.filter (fun row => should_emit_alert row.rule_id),
      a.rule_id = "R4" ∨ a.rule_id = "R10" ∨ a.rule_id = "R12") ∧
    (anomalies.filter (fun row => should_emit_alert row.rule_id) = [] →
      spawn_alerts sendOutcome now config deliveries history_limit anomalies =
        (deliveries, none)) ∧
    (anomalies.filter (fun row => should_emit_alert row.rule_id) ≠ [] →
      ∃ record,
        (spawn_alerts sendOutcome now config deliveries history_limit
          anomalies).2 = some record ∧
        (spawn_alerts sendOutcome now config deliveries history_limit
          anomalies).1 = push_delivery deliveries history_limit record ∧
        record.rule_ids.Pairwise (· < ·) ∧
        record.rule_ids.Nodup ∧
        (∀ s, s ∈ record.rule_ids ↔ ∃ a ∈ anomalies.filter
          (fun row => should_emit_alert row.rule_id), a.rule_id = s) ∧
        record.alert_count = (anomalies.filter
          (fun row => should_emit_alert row.rule_id)).length) := by
  refine ⟨?_, ?_, ?_⟩
  · intro a ha
    have := (List.mem_filter.mp ha).2
    simpa [should_emit_alert] using this
  · intro hempty
    unfold spawn_alerts
    rw [hempty]
    simp
  · intro hne
    unfold spawn_alerts
    rw [if_neg (by simpa [List.isEmpty_iff] using hne)]
    refine ⟨_, rfl, rfl, ?_, ?_, ?_, rfl⟩
    · exact btree_of_sorted _
    · exact (btree_of_sorted _).imp fun h => ne_of_lt h
    · intro s
      rw [btree_of_mem, List.mem_map]

/-- C6 witness: a concrete batch with rule ids R4, R1, R12, R4 is filtered
to three alerts and recorded with rule ids [R12, R4] sorted and deduplicated. -/
theorem c6_witness :
    ∃ record,
      (spawn_alerts (fun _ => none) 0 fix_config [] 200
        [fix_anomaly "R4", fix_anomaly "R1", fix_anomaly "R12",
          fix_anomaly "R4"]).2 = some record ∧
      (spawn_alerts (fun _ => none) 0 fix_config [] 200
        [fix_anomaly "R4", fix_anomaly "R1", fix_anomaly "R12",
          fix_anomaly "R4"]).1 = push_delivery [] 200 record ∧
      record.rule_ids.Pairwise (· < ·) ∧
      record.rule_ids.Nodup ∧
      (∀ s, s ∈ record.rule_ids ↔ ∃ a ∈ ([fix_anomaly "R4", fix_anomaly "R1",
        fix_anomaly "R12", fix_anomaly "R4"] : List AnomalyRow).filter
        (fun row => should_emit_alert row.rule_id), a.rule_id = s) ∧
      record.alert_count = (([fix_anomaly "R4", fix_anomaly "R1",
        fix_anomaly "R12", fix_anomaly "R4"] : List AnomalyRow).filter
        (fun row => should_emit_alert row.rule_id)).length :=
  (c6_alert_filter_and_record (fun _ => none) 0 fix_config [] 200
    [fix_anomaly "R4", fix_anomaly "R1", fix_anomaly "R12",
      fix_anomaly "R4"]).2.2 (by decide)

/-! ### Claim C7 -/

/-- C7 counterexample to the claim as stated: `load_key_items` reads the
file with no existence check, so an absent key-items file returns the read
error rather than the empty rule set (callers recover with
`unwrap_or_default`). -/
theorem c7_counterexample :
    load_key_items (fun _ => Except.ok []) ⟨[]⟩ "./key_items.yaml" =
      Except.error "No such file or directory" := by
  rfl

/-- C7 (amended): when the backing file is absent, `load_item_registry`,
`load_rcon_config`, `load_mod_config` and `load_mod_config_ack` return the
empty or default value and never an error, whatever the parser does;
`load_key_items` alone surfaces the read error. -/
theorem c7_absent_file_defaults (fs : FileSystem)
    (path config_dir server_id : String)
    (parseYaml : String → Except String (List KeyItemRule))
    (parseReg : String → Except String (List ItemRegistryEntry))
    (parseToml : String → Except String RconConfig)
    (parseEnv : String → Except String ModConfigEnvelope)
    (parseAck : String → Except String ModConfigAck) :
    (fs_exists fs path = false →
      load_item_registry parseReg fs path = Except.ok [] ∧
      load_rcon_config parseToml fs path = Except.ok RconConfig.defaultValue ∧
      load_key_items parseYaml fs path =
        Except.error "No such file or directory") ∧
    (fs_exists fs (mod_config_path config_dir server_id) = false →
      load_mod_config parseEnv fs config_dir server_id = Except.ok none) ∧
    (fs_exists fs (mod_config_ack_path config_dir server_id) = false →
      load_mod_config_ack parseAck fs config_dir server_id = Except.ok none) := by
  refine ⟨?_, ?_, ?_⟩
  · intro habsent
    have hfind : alist.find fs.files path = none := by
      simpa [fs_exists, Option.isSome_iff_exists] using habsent
    refine ⟨?_, ?_, ?_⟩
    · simp [load_item_registry, habsent]
    · simp [load_rcon_config, habsent]
    · simp [load_key_items, read_to_string, hfind]
  · intro habsent
    simp [load_mod_config, habsent]
  · intro habsent
    simp [load_mod_config_ack, habsent]

/-- C7 witness: on the empty filesystem the four guarded loads yield their
defaults (shown here for the item registry). -/
theorem c7_witness :
    load_item_registry (fun _ => Except.error "bad json") ⟨[]⟩
      "./item_registry.json" = Except.ok [] :=
  ((c7_absent_file_defaults ⟨[]⟩ "./item_registry.json" "." "s1"
    (fun _ => Except.ok []) (fun _ => Except.error "bad json")
    (fun _ => Except.error "bad toml") (fun _ => Except.error "bad env")
    (fun _ => Except.error "bad ack")).1 rfl).1

/-! ### Claim C8 -/

theorem hex_digit_char_mem (n : Nat) (h : n < 16) :
    hex_digit_char n ∈ hex_chars := by
  interval_cases n <;> decide

theorem byte_to_hex_length (b : Nat) : (byte_to_hex b).length = 2 := rfl

theorem byte_to_hex_chars (b : Nat) :
    ∀ c ∈ (byte_to_hex b).data, c ∈ hex_chars := by
  intro c hc
  simp only [byte_to_hex, String.mk, List.mem_cons] at hc
  rcases hc with rfl | rfl | hc
  · exact hex_digit_char_mem _ (Nat.mod_lt _ (by omega))
  · exact hex_digit_char_mem _ (Nat.mod_lt _ (by omega))
  · simp at hc

theorem sign_fold_length (parts : List Nat) :
    ∀ acc : String,
      ((parts.map byte_to_hex).foldl (fun acc part => acc ++ part) acc).length =
        acc.length + 2 * parts.length := by
  induction parts with
  | nil => intro acc; simp
  | cons hd tl ih =>
      intro acc
      rw [List.map_cons, List.foldl_cons, ih]
      simp [String.length_append, byte_to_hex_length]
      omega

theorem sign_fold_chars (parts : List Nat) :
    ∀ acc : String,
      ∀ c ∈ ((parts.map byte_to_hex).foldl
        (fun acc part => acc ++ part) acc).data,
        c ∈ acc.data ∨ c ∈ hex_chars := by
  induction parts with
  | nil => intro acc c hc; exact Or.inl hc
  | cons hd tl ih =>
      intro acc c hc
      rw [List.map_cons, List.foldl_cons] at hc
      rcases ih (acc ++ byte_to_hex hd) c hc with hin | hin
      · rw [String.data_append] at hin
        rcases List.mem_append.mp hin with hin | hin
        · exact Or.inl hin
        · exact Or.inr (byte_to_hex_chars hd c hin)
      · exact Or.inr hin

theorem sign_hmac_sha256_hex (hmac : String → String → List Nat)
    (secret payload : String)
    (hlen : (hmac secret payload).length = 32) :
    (sign_hmac_sha256 hmac secret payload).length = 64 ∧
    ∀ c ∈ (sign_hmac_sha256 hmac secret payload).data, c ∈ hex_chars := by
  constructor
  · rw [sign_hmac_sha256, sign_fold_length, hlen]
    decide
  · intro c hc
    rw [sign_hmac_sha256] at hc
    rcases sign_fold_chars (hmac secret payload) "" c hc with hin | hin
    · simp at hin
    · exact hin

/-- C8: a successful `issue_op_token` whose envelope resolves the secret
`s` returns exactly the five dot-joined parts `lattice`, `v2`, the day, the
token id and the lowercase-hex HMAC of `lattice|v2|<day>|<token_id>` keyed
by `s`; whenever the HMAC digest has the 32 bytes of HMAC-SHA256, the
trailing signature is 64 lowercase hex characters. -/
theorem c8_token_shape (hmac : String → String → List Nat)
    (day token_id expires_at : String) (config : RuntimeConfig)
    (mod_config : Option ModConfigEnvelope) (payload : OpTokenIssueRequest)
    (resp : OpTokenIssueResponse) (envelope : ModConfigEnvelope) (s : String)
    (henv : mod_config = some envelope)
    (hsecret : (((envelope.config.get "op_command_token_secret").bind
      Json.asStr).map str_trim).filter (fun value => value ≠ "") = some s)
    (hok : issue_op_token hmac day token_id expires_at config mod_config
      payload = Except.ok resp) :
    resp.token = "lattice.v2." ++ day ++ "." ++ token_id ++ "." ++
      sign_hmac_sha256 hmac s ("lattice|v2|" ++ day ++ "|" ++ token_id) ∧
    resp.day = day ∧ resp.expires_at = expires_at ∧
    ((hmac s ("lattice|v2|" ++ day ++ "|" ++ token_id)).length = 32 →
      (sign_hmac_sha256 hmac s ("lattice|v2|" ++ day ++ "|" ++
        token_id)).length = 64 ∧
      ∀ c ∈ (sign_hmac_sha256 hmac s ("lattice|v2|" ++ day ++ "|" ++
        token_id)).data, c ∈ hex_chars) := by
  subst henv
  unfold issue_op_token at hok
  simp only [] at hok
  repeat' split at hok
  all_goals try exact Except.noConfusion hok
  rename_i secretv heq
  rw [hsecret] at heq
  injection heq with hs
  simp only [Except.ok.injEq] at hok
  subst hok
  rw [← hs]
  have hpre : ("lattice" ++ "|" ++ "v2" ++ "|" : String) = "lattice|v2|" := by
    decide
  have hdot : ("lattice" ++ "." ++ "v2" ++ "." : String) = "lattice.v2." := by
    decide
  refine ⟨?_, rfl, rfl, ?_⟩
  · show ("lattice" ++ "." ++ "v2" ++ "." ++ day ++ "." ++ token_id ++ "." ++
      sign_hmac_sha256 hmac s ("lattice" ++ "|" ++ "v2" ++ "|" ++ day ++ "|" ++
        token_id)) = _
    rw [hpre, hdot]
  · intro hlen
    exact sign_hmac_sha256_hex hmac s _ hlen

/-- C8 witness: with the stub HMAC (32 bytes 0xab), day 20260223, token id
`abc` and secret `secret`, the issued token is the five dot-joined parts
ending in 64 lowercase hex characters. -/
theorem c8_witness :
    (issue_op_token fix_hmac "20260223" "abc" "2026-02-24T00:00:00+08:00"
      fix_op_config (some fix_envelope) fix_op_payload).map
      (fun resp => resp.token) =
      Except.ok ("lattice.v2." ++ "20260223" ++ "." ++ "abc" ++ "." ++
        sign_hmac_sha256 fix_hmac "secret"
          ("lattice|v2|" ++ "20260223" ++ "|" ++ "abc")) ∧
    (sign_hmac_sha256 fix_hmac "secret"
      ("lattice|v2|" ++ "20260223" ++ "|" ++ "abc")).length = 64 ∧
    ∀ c ∈ (sign_hmac_sha256 fix_hmac "secret"
      ("lattice|v2|" ++ "20260223" ++ "|" ++ "abc")).data, c ∈ hex_chars := by
  have hok : issue_op_token fix_hmac "20260223" "abc"
      "2026-02-24T00:00:00+08:00" fix_op_config (some fix_envelope)
      fix_op_payload = Except.ok
      ⟨"lattice.v2.20260223.abc.abababababababababababababababababababababababababababababababab",
        "20260223", "2026-02-24T00:00:00+08:00"⟩ := by
    rfl
  have h := c8_token_shape fix_hmac "20260223" "abc"
    "2026-02-24T00:00:00+08:00" fix_op_config (some fix_envelope)
    fix_op_payload _ fix_envelope "secret" rfl (by rfl) hok
  refine ⟨?_, ?_, ?_⟩
  · rw [hok]
    rw [show Except.map (fun resp => resp.token) (Except.ok
      (⟨"lattice.v2.20260223.abc.abababababababababababababababababababababababababababababababab",
        "20260223", "2026-02-24T00:00:00+08:00"⟩ : OpTokenIssueResponse)) =
      Except.ok
        "lattice.v2.20260223.abc.abababababababababababababababababababababababababababababababab"
      from rfl]
    exact congrArg Except.ok h.1
  · exact (h.2.2.2 (by rfl)).1
  · exact (h.2.2.2 (by rfl)).2

end Lattice
